import Mathlib

/-!
Verification of the recipe-sharing REST API (Flask) against its
natural-language specification.

The Python source under `app/` is shallowly embedded: SQLAlchemy tables
become lists inside a `DB` record, each Flask resource handler becomes a
pure function from a `DB` (plus the authenticated caller and the parsed
request body) to a new `DB` and a response, and Python floats produced by
`sum(...) / len(...)` together with `round(x, n)` are modelled over `ℚ`
with an explicit round-half-to-even function (CPython's `round`).
Source messages containing apostrophes are reproduced without them.
-/

namespace RecipeApi

/-- `users` table row (`app/models/user.py`).  Only the columns the
verified handlers read are carried. -/
structure User where
  id : Nat
  username : String
  is_admin : Bool
deriving DecidableEq, Repr

/-- `categories` table row (`app/models/category.py`). -/
structure Category where
  id : Nat
  name : String
  slug : String
  description : Option String
deriving DecidableEq, Repr

/-- `recipes` table row (`app/models/recipe.py`). -/
structure Recipe where
  id : Nat
  title : String
  slug : String
  instructions : String
  is_published : Bool
  user_id : Nat
  category_id : Nat
deriving DecidableEq, Repr

/-- `ingredients` table row (`app/models/ingredient.py`). -/
structure Ingredient where
  id : Nat
  name : String
  quantity : String
  unit : Option String
  notes : Option String
  order : Int
  recipe_id : Nat
deriving DecidableEq, Repr

/-- `ratings` table row (`app/models/rating.py`).  The table carries the
unique constraint `unique_user_recipe_rating` on `(user_id, recipe_id)`;
in the embedding the constraint lives in `dbInsertRating`. -/
structure Rating where
  id : Nat
  score : Int
  comment : Option String
  user_id : Nat
  recipe_id : Nat
deriving DecidableEq, Repr

/-- The relational store: one list per table, in insertion order. -/
structure DB where
  users : List User
  categories : List Category
  recipes : List Recipe
  ingredients : List Ingredient
  ratings : List Rating
deriving DecidableEq, Repr

/-- HTTP response envelope (`app/utils/responses.py`): status code and
message.  Payloads are returned separately by each handler. -/
structure Resp where
  status : Nat
  message : String
deriving DecidableEq, Repr

def not_found_response (m : String) : Resp := ⟨404, m⟩

def forbidden_response (m : String) : Resp := ⟨403, m⟩

def error_response (m : String) (code : Nat) : Resp := ⟨code, m⟩

def validation_error_response : Resp := ⟨422, "Validation failed"⟩

def success_response (m : String) (code : Nat) : Resp := ⟨code, m⟩

/-- `User.query.get(uid)`. -/
def findUser (σ : DB) (uid : Nat) : Option User :=
  σ.users.find? (fun u => u.id == uid)

/-- `Category.query.get(cid)`. -/
def findCategory (σ : DB) (cid : Nat) : Option Category :=
  σ.categories.find? (fun c => c.id == cid)

/-- `Recipe.query.get(rid)`. -/
def findRecipe (σ : DB) (rid : Nat) : Option Recipe :=
  σ.recipes.find? (fun r => r.id == rid)

/-- `Rating.query.filter_by(id=rating_id, recipe_id=recipe_id).first()`. -/
def findRating (σ : DB) (rid ratingId : Nat) : Option Rating :=
  σ.ratings.find? (fun r => r.id == ratingId && r.recipe_id == rid)

/-- `Rating.query.filter_by(recipe_id=recipe_id).all()` (also the
`recipe.ratings` relationship). -/
def ratingsFor (σ : DB) (rid : Nat) : List Rating :=
  σ.ratings.filter (fun r => r.recipe_id == rid)

/-- `Ingredient` rows of one recipe (`recipe.ingredients`). -/
def ingredientsFor (σ : DB) (rid : Nat) : List Ingredient :=
  σ.ingredients.filter (fun g => g.recipe_id == rid)

/-- CPython `round(q)` to an integer: round half to even.
(`Rat.floor` is used rather than `⌊·⌋` so that concrete instances
evaluate by `decide`; the two agree by `Rat.floor_def'`.) -/
def roundHalfEven (q : ℚ) : ℤ :=
  let f : ℤ := q.floor
  let r : ℚ := q - (f : ℚ)
  if r < 1/2 then f
  else if 1/2 < r then f + 1
  else if f % 2 = 0 then f else f + 1

/-- CPython `round(q, 2)` modelled exactly on rationals. -/
def pyRound2 (q : ℚ) : ℚ := ((roundHalfEven (q * 100) : ℤ) : ℚ) / 100

/-- CPython `round(q, 1)` modelled exactly on rationals. -/
def pyRound1 (q : ℚ) : ℚ := ((roundHalfEven (q * 10) : ℤ) : ℚ) / 10

/-- `sum([r.score for r in ratings])`. -/
def sumScores (rs : List Rating) : Int :=
  (rs.map (fun r => r.score)).sum

/-- `Recipe.average_rating` (`app/models/recipe.py`): `0` when the recipe
has no ratings, else `round(total / count, 2)`. -/
def average_rating (σ : DB) (rid : Nat) : ℚ :=
  let rs := ratingsFor σ rid
  if rs.length = 0 then 0
  else pyRound2 ((sumScores rs : ℚ) / (rs.length : ℚ))

/-- `RecipeResponseSchema.get_average_rating`
(`app/schemas/recipe_schema.py`): `round(avg, 2) if avg else None`, where
`avg` is the model method above and Python truthiness sends `0` to
`None`. -/
def get_average_rating (σ : DB) (rid : Nat) : Option ℚ :=
  let avg := average_rating σ rid
  if avg = 0 then none else some (pyRound2 avg)

/-- The five-bucket histogram of `RecipeRatingStatsResource.get`. -/
structure RatingDistribution where
  five : Nat
  four : Nat
  three : Nat
  two : Nat
  one : Nat
deriving DecidableEq, Repr

/-- `len([r for r in ratings if r.score == k])`. -/
def countScore (rs : List Rating) (k : Int) : Nat :=
  (rs.filter (fun r => r.score == k)).length

/-- Payload of `/recipes/{id}/ratings/stats`.  In the zero-rating branch
the source response carries no `distribution_percentages` key, hence the
`Option`. -/
structure RatingStatsData where
  total_ratings : Nat
  average_rating : Option ℚ
  distribution : RatingDistribution
  distribution_percentages : Option (ℚ × ℚ × ℚ × ℚ × ℚ)
deriving DecidableEq, Repr

/-- `RecipeRatingStatsResource.get` (`app/api/v1/ratings.py`). -/
def ratingStatsGet (σ : DB) (rid : Nat) : Resp × Option RatingStatsData :=
  match findRecipe σ rid with
  | none => (not_found_response "Recipe not found", none)
  | some _ =>
    let rs := ratingsFor σ rid
    if rs.length = 0 then
      (success_response "No ratings yet for this recipe" 200,
       some { total_ratings := 0
              average_rating := none
              distribution := ⟨0, 0, 0, 0, 0⟩
              distribution_percentages := none })
    else
      let total := rs.length
      let avg : ℚ := (sumScores rs : ℚ) / (total : ℚ)
      let d : RatingDistribution :=
        ⟨countScore rs 5, countScore rs 4, countScore rs 3,
         countScore rs 2, countScore rs 1⟩
      let pct : Nat → ℚ := fun n => pyRound1 (((n : ℚ) / (total : ℚ)) * 100)
      (success_response "Rating statistics retrieved successfully" 200,
       some { total_ratings := total
              average_rating := some (pyRound2 avg)
              distribution := d
              distribution_percentages :=
                some (pct d.five, pct d.four, pct d.three, pct d.two, pct d.one) })

/-- Python `str.lower()` restricted to ASCII (all titles and names in the
claims are ASCII). -/
def pyLower (s : String) : String :=
  String.mk (s.toList.map Char.toLower)

/-- ASCII whitespace class of Python regex `\s` / `str.isspace`. -/
def isPySpace (c : Char) : Bool :=
  c = ' ' || c = '\t' || c = '\n' || c = '\r' || c = '\x0b' || c = '\x0c'

/-- Character class `[a-z0-9-]` of the slug regexes in
`app/api/v1/recipes.py`. -/
def isSlugChar (c : Char) : Bool :=
  (('a' ≤ c) && (c ≤ 'z')) || (('0' ≤ c) && (c ≤ '9')) || c = '-'

/-- `re.sub(r'-+', '-', s)`: collapse every run of hyphens to one. -/
def collapseHyphens : List Char → List Char
  | [] => []
  | [c] => [c]
  | c :: d :: rest =>
    if c = '-' && d = '-' then collapseHyphens (d :: rest)
    else c :: collapseHyphens (d :: rest)

/-- Python `s.strip('-')`: drop leading and trailing hyphens. -/
def stripHyphens (l : List Char) : List Char :=
  ((l.dropWhile (fun c => c = '-')).reverse.dropWhile (fun c => c = '-')).reverse

/-- The inline slug pipeline of `RecipeListResource.post`
(`app/api/v1/recipes.py`): lowercase, `' '` → `'-'`,
strip `[^a-z0-9-]`, collapse `-+`, strip `'-'`. -/
def recipeDeriveSlug (title : String) : String :=
  String.mk (stripHyphens (collapseHyphens
    (((pyLower title).toList.map (fun c => if c = ' ' then '-' else c)).filter isSlugChar)))

/-- Modelled from the spec (section 4.3), for refinement comparison only:
`deriveSlug(text)` lowercases, replaces whitespace runs with a single
hyphen, strips characters outside `[a-z0-9-]`, collapses repeated hyphens
and trims leading/trailing hyphens.  Mapping every whitespace character to
a hyphen and then collapsing hyphen runs realises the run replacement. -/
def specDeriveSlug (text : String) : String :=
  String.mk (stripHyphens (collapseHyphens
    (((pyLower text).toList.map (fun c => if isPySpace c then '-' else c)).filter isSlugChar)))

/-- The `while` loop of the slug-uniqueness retry: try `base-n`,
`base-(n+1)`, … and return the first candidate not taken.  The source
loop terminates because the candidates are pairwise distinct and only
finitely many slugs are taken; the fuel (always called with
`taken.length + 1`) makes that termination explicit. -/
def slugRetry (base : String) (taken : List String) : Nat → Nat → String
  | n, 0 => base ++ "-" ++ toString n
  | n, fuel + 1 =>
    let cand := base ++ "-" ++ toString n
    if taken.contains cand then slugRetry base taken (n + 1) fuel else cand

/-- `while Recipe.query.filter_by(slug=new_slug).first(): ...` —
`candidate` itself if free, else the first free `candidate-1`,
`candidate-2`, …. -/
def ensureUniqueSlug (candidate : String) (taken : List String) : String :=
  if taken.contains candidate then slugRetry candidate taken 1 (taken.length + 1)
  else candidate

/-- `Category._generate_slug` (`app/models/category.py`):
`name.lower().replace(' ', '-').replace('_', '-')` — and nothing else. -/
def category_generate_slug (name : String) : String :=
  String.mk ((pyLower name).toList.map
    (fun c => if c = ' ' then '-' else if c = '_' then '-' else c))

/-- The regex `^\S.*\S$|^\S$` of `RecipeCreateSchema.title` under
`re.match`: first and last character non-whitespace (`.` does not cross a
newline; `$` also matches just before one trailing newline). -/
def titleRegexCore (l : List Char) : Bool :=
  match l with
  | [] => false
  | [a] => !isPySpace a
  | a :: rest =>
    !isPySpace a &&
    (match rest.getLast? with
     | some b => !isPySpace b
     | none => false) &&
    !(rest.dropLast.contains '\n')

/-- Full match of the title regex, allowing the `$`-before-trailing-newline
case of Python regex semantics. -/
def titleRegexOk (l : List Char) : Bool :=
  titleRegexCore l ||
  (match l.getLast? with
   | some c => c = '\n' && titleRegexCore l.dropLast
   | none => false)

/-- `RecipeCreateSchema` validation of the `title` field:
`Length(min=3, max=200)` plus the regex above. -/
def titleValid (t : String) : Bool :=
  3 ≤ t.length && t.length ≤ 200 && titleRegexOk t.toList

/-- Parsed body of `POST /recipes/{id}/ratings`
(`RatingCreateSchema`). -/
structure RatingCreateBody where
  score : Int
  comment : Option String
deriving DecidableEq, Repr

/-- `RatingCreateSchema` validation: `score` required in `1..5`,
`comment` optional with length at most 500. -/
def rating_create_valid (b : RatingCreateBody) : Bool :=
  1 ≤ b.score && b.score ≤ 5 &&
  (match b.comment with
   | some c => c.length ≤ 500
   | none => true)

/-- Fresh autoincrement primary key for `ratings`. -/
def nextRatingId (σ : DB) : Nat :=
  (σ.ratings.map (fun r => r.id)).foldr max 0 + 1

/-- A store insert into `ratings`: `none` models the `IntegrityError`
raised by the `unique_user_recipe_rating` constraint when a row with the
same `(user_id, recipe_id)` already exists. -/
def dbInsertRating (σ : DB) (r : Rating) : Option DB :=
  if σ.ratings.any (fun x => x.user_id == r.user_id && x.recipe_id == r.recipe_id) then none
  else some { σ with ratings := σ.ratings ++ [r] }

/-- `Rating.query.filter_by(user_id=..., recipe_id=...).first()` turned
into a presence check. -/
def alreadyRated (σ : DB) (uid rid : Nat) : Bool :=
  σ.ratings.any (fun x => x.user_id == uid && x.recipe_id == rid)

/-- The commit stage of `RatingListResource.post`: `db.session.add` +
`commit`, with `except IntegrityError: rollback` translated to the 400
already-rated error.  The raced duplicate insert of a concurrent request
lands here directly. -/
def ratingInsertStage (σ : DB) (uid rid : Nat) (b : RatingCreateBody) : DB × Resp :=
  match dbInsertRating σ
      { id := nextRatingId σ, score := b.score, comment := b.comment,
        user_id := uid, recipe_id := rid } with
  | some σ' => (σ', success_response "Rating added successfully" 201)
  | none => (σ, error_response "You have already rated this recipe" 400)

/-- `RatingListResource.post` (`app/api/v1/ratings.py`). -/
def ratingPost (σ : DB) (uid rid : Nat) (body : Option RatingCreateBody) : DB × Resp :=
  if (findRecipe σ rid).isNone then
    (σ, not_found_response "Recipe not found")
  else if alreadyRated σ uid rid then
    (σ, error_response "You have already rated this recipe. Use PUT to update your rating." 400)
  else
    match body with
    | none => (σ, error_response "No input data provided" 400)
    | some b =>
      if rating_create_valid b then ratingInsertStage σ uid rid b
      else (σ, validation_error_response)

/-- Parsed body of `PUT /recipes/{id}/ratings/{rid}`
(`RatingUpdateSchema`, all fields optional; the outer `Option` on
`comment` is key presence, the inner one JSON `null`). -/
structure RatingUpdateBody where
  score : Option Int
  comment : Option (Option String)
deriving DecidableEq, Repr

/-- `RatingUpdateSchema` validation. -/
def rating_update_valid (b : RatingUpdateBody) : Bool :=
  (match b.score with
   | some s => 1 ≤ s && s ≤ 5
   | none => true) &&
  (match b.comment with
   | some (some c) => c.length ≤ 500
   | _ => true)

/-- Python equality between the JWT identity and an integer ownership
column.  `create_access_token(identity=str(user.id))` (`auth.py` lines
65, 117 and 153) makes `get_jwt_identity()` return a **string** in every
handler, and a Python `==`/`!=` between a `str` and an `int` never finds
them equal, whatever the digits — so every in-handler ownership
comparison is constantly unequal and this function is constantly
`false`.  DB-level lookups are unaffected: SQLite INTEGER affinity
coerces the text back to the numeric value, which is why handler
parameters carry the identity as the `Nat` it denotes. -/
def pyIdentityEqInt (_uid _column : Nat) : Bool := false

/-- `for key, value in validated_data.items(): setattr(rating, key, value)`. -/
def applyRatingUpdate (b : RatingUpdateBody) (r : Rating) : Rating :=
  { r with
    score := b.score.getD r.score
    comment := (match b.comment with
                | some c => c
                | none => r.comment) }

/-- `RatingDetailResource.put`.  The author check
`if rating.user_id != current_user_id:` compares the integer column to
the string identity and is therefore always true: every caller — the
author included — is forbidden, and the update body below the check is
dead code (kept here, under the constantly false `pyIdentityEqInt`, to
mirror the source).  Primary keys are unique, so updating every row
matching `(id, recipe_id)` coincides with the source updating the single
fetched row. -/
def ratingPut (σ : DB) (uid rid ratingId : Nat) (body : Option RatingUpdateBody) : DB × Resp :=
  if (findRecipe σ rid).isNone then
    (σ, not_found_response "Recipe not found")
  else
    match findRating σ rid ratingId with
    | none => (σ, not_found_response "Rating not found")
    | some rating =>
      if pyIdentityEqInt uid rating.user_id then
        match body with
        | none => (σ, error_response "No input data provided" 400)
        | some b =>
          if rating_update_valid b then
            let rs := σ.ratings.map
              (fun r => if r.id == ratingId && r.recipe_id == rid then applyRatingUpdate b r else r)
            ({ σ with ratings := rs }, success_response "Rating updated successfully" 200)
          else (σ, validation_error_response)
      else
        (σ, forbidden_response "You can only update your own ratings")

/-- `RatingDetailResource.delete`.  Same dead author check as
`ratingPut`: `rating.user_id != current_user_id` (int vs string) always
holds, so every caller is forbidden and the delete is unreachable. -/
def ratingDelete (σ : DB) (uid rid ratingId : Nat) : DB × Resp :=
  if (findRecipe σ rid).isNone then
    (σ, not_found_response "Recipe not found")
  else
    match findRating σ rid ratingId with
    | none => (σ, not_found_response "Rating not found")
    | some rating =>
      if pyIdentityEqInt uid rating.user_id then
        let rs := σ.ratings.filter (fun r => !(r.id == ratingId && r.recipe_id == rid))
        ({ σ with ratings := rs }, success_response "Rating deleted successfully" 200)
      else
        (σ, forbidden_response "You can only delete your own ratings")

/-- The ownership check repeated across mutating recipe/ingredient
handlers: `recipe.user_id != current_user_id and not user.is_admin`.
The first operand compares the integer column to the string identity and
is always true, so the short-circuit owner pass (modelled by the
constantly false `pyIdentityEqInt`) never fires and the gate reduces to
the admin flag: non-admin owners are forbidden.  `some true` = allowed,
`some false` = 403; `none` models the `AttributeError`
(`None.is_admin`) the source raises — and its generic `except` turns
into a 500 — when the token names no user row. -/
def ownerOrAdminGate (σ : DB) (uid owner : Nat) : Option Bool :=
  if pyIdentityEqInt uid owner then some true
  else
    match findUser σ uid with
    | some u => if u.is_admin then some true else some false
    | none => none

/-- Cascade of `db.session.delete(recipe)`: the `all, delete-orphan`
relationships remove the recipe's ingredients and ratings with it. -/
def recipeCascadeDelete (σ : DB) (rid : Nat) : DB :=
  { σ with
    recipes := σ.recipes.filter (fun r => !(r.id == rid))
    ingredients := σ.ingredients.filter (fun g => !(g.recipe_id == rid))
    ratings := σ.ratings.filter (fun x => !(x.recipe_id == rid)) }

/-- `RecipeDetailResource.delete`. -/
def recipeDelete (σ : DB) (uid rid : Nat) : DB × Resp :=
  match findRecipe σ rid with
  | none => (σ, not_found_response "Recipe not found")
  | some recipe =>
    match ownerOrAdminGate σ uid recipe.user_id with
    | none => (σ, error_response "Error deleting recipe" 500)
    | some false => (σ, forbidden_response "You do not have permission to delete this recipe")
    | some true => (recipeCascadeDelete σ rid, success_response "Recipe deleted successfully" 200)

/-- Stable insertion step for `order_by('order')`. -/
def insertByOrder (x : Ingredient) : List Ingredient → List Ingredient
  | [] => [x]
  | y :: ys => if y.order ≤ x.order then y :: insertByOrder x ys else x :: y :: ys

/-- `obj.ingredients.order_by('order').all()`: stable sort on the
`order` column. -/
def sortByOrder (l : List Ingredient) : List Ingredient :=
  l.foldr insertByOrder []

/-- Payload of `RecipeDetailResponseSchema`: the recipe row plus
the computed rating fields and the full nested collections. -/
structure RecipeDetailData where
  recipe : Recipe
  average_rating : Option ℚ
  rating_count : Nat
  ingredients : List Ingredient
  ratings : List Rating
deriving DecidableEq, Repr

/-- `recipe_detail_response_schema.dump(recipe)` (`created_at` ordering
of the nested ratings is not modelled; the list is carried in storage
order). -/
def recipeDetailData (σ : DB) (recipe : Recipe) : RecipeDetailData :=
  { recipe := recipe
    average_rating := get_average_rating σ recipe.id
    rating_count := (ratingsFor σ recipe.id).length
    ingredients := sortByOrder (ingredientsFor σ recipe.id)
    ratings := ratingsFor σ recipe.id }

/-- `RecipeDetailResource.get` (`app/api/v1/recipes.py`).  `actor` is the
identity resolved from the optional token: `none` for an anonymous
caller (`get_jwt_identity()` returning `None`).  The guard
`if current_user_id != recipe.user_id:` compares the string identity
(or `None`) to the integer column and is always true, so the owner
shortcut to 200 (modelled under the constantly false `pyIdentityEqInt`)
is unreachable: on an unpublished recipe every caller falls into the
admin lookup, and a non-admin owner is answered 403. -/
def recipeDetailGet (σ : DB) (actor : Option Nat) (rid : Nat) :
    Resp × Option RecipeDetailData :=
  match findRecipe σ rid with
  | none => (not_found_response "Recipe not found", none)
  | some recipe =>
    if recipe.is_published then
      (success_response "Recipe retrieved successfully" 200, some (recipeDetailData σ recipe))
    else if (match actor with
             | some uid => pyIdentityEqInt uid recipe.user_id
             | none => false) then
      (success_response "Recipe retrieved successfully" 200, some (recipeDetailData σ recipe))
    else
      match actor with
      | none => (forbidden_response "This recipe is not published", none)
      | some uid =>
        match findUser σ uid with
        | some u =>
          if u.is_admin then
            (success_response "Recipe retrieved successfully" 200, some (recipeDetailData σ recipe))
          else (forbidden_response "This recipe is not published", none)
        | none => (forbidden_response "This recipe is not published", none)

/-- Parsed body of `POST /recipes` (`RecipeCreateSchema`; the optional
timing/serving/difficulty/image fields play no role in the verified
claims and are omitted). -/
structure RecipeCreateBody where
  title : String
  instructions : String
  category_id : Nat
  is_published : Bool
deriving DecidableEq, Repr

/-- `RecipeCreateSchema` validation of the fields carried here. -/
def recipe_create_valid (b : RecipeCreateBody) : Bool :=
  titleValid b.title && 10 ≤ b.instructions.length

/-- Fresh autoincrement primary key for `recipes`. -/
def nextRecipeId (σ : DB) : Nat :=
  (σ.recipes.map (fun r => r.id)).foldr max 0 + 1

/-- `RecipeListResource.post`: validate, check the category, derive the
slug (the inline regex pipeline, `recipeDeriveSlug`), make it unique with
the `-1`, `-2`, … retry loop (`ensureUniqueSlug`) and insert. -/
def recipeCreate (σ : DB) (uid : Nat) (body : Option RecipeCreateBody) :
    DB × Resp × Option Recipe :=
  match body with
  | none => (σ, error_response "No input data provided" 400, none)
  | some b =>
    if !recipe_create_valid b then (σ, validation_error_response, none)
    else
      match findCategory σ b.category_id with
      | none => (σ, not_found_response "Category not found", none)
      | some _ =>
        let slug := ensureUniqueSlug (recipeDeriveSlug b.title) (σ.recipes.map (fun r => r.slug))
        let recipe : Recipe :=
          { id := nextRecipeId σ, title := b.title, slug := slug,
            instructions := b.instructions, is_published := b.is_published,
            user_id := uid, category_id := b.category_id }
        ({ σ with recipes := σ.recipes ++ [recipe] },
         success_response "Recipe created successfully" 201, some recipe)

/-- Parsed body of `POST /categories` (`CategoryCreateSchema`). -/
structure CategoryCreateBody where
  name : String
  description : Option String
deriving DecidableEq, Repr

/-- `CategoryCreateSchema` validation: name length 2..50, description at
most 500. -/
def category_create_valid (b : CategoryCreateBody) : Bool :=
  2 ≤ b.name.length && b.name.length ≤ 50 &&
  (match b.description with
   | some d => d.length ≤ 500
   | none => true)

/-- Fresh autoincrement primary key for `categories`. -/
def nextCategoryId (σ : DB) : Nat :=
  (σ.categories.map (fun c => c.id)).foldr max 0 + 1

/-- A store insert into `categories`: `none` models the `IntegrityError`
of the unique constraints on `name` and `slug`. -/
def dbInsertCategory (σ : DB) (c : Category) : Option DB :=
  if σ.categories.any (fun x => x.name == c.name || x.slug == c.slug) then none
  else some { σ with categories := σ.categories ++ [c] }

/-- `CategoryListResource.post` (`app/api/v1/categories.py`): admin-only;
pre-check on the (unique) name; slug from `Category._generate_slug`; the
`IntegrityError` handler re-issues the duplicate-name 400. -/
def categoryPost (σ : DB) (uid : Nat) (body : Option CategoryCreateBody) :
    DB × Resp × Option Category :=
  match findUser σ uid with
  | none => (σ, forbidden_response "Admin privileges required to create categories", none)
  | some u =>
    if !u.is_admin then
      (σ, forbidden_response "Admin privileges required to create categories", none)
    else
      match body with
      | none => (σ, error_response "No input data provided" 400, none)
      | some b =>
        if !category_create_valid b then (σ, validation_error_response, none)
        else if σ.categories.any (fun c => c.name == b.name) then
          (σ, error_response "Category with this name already exists" 400, none)
        else
          let c : Category :=
            { id := nextCategoryId σ, name := b.name,
              slug := category_generate_slug b.name, description := b.description }
          match dbInsertCategory σ c with
          | some σ' => (σ', success_response "Category created successfully" 201, some c)
          | none => (σ, error_response "Category with this name already exists" 400, none)

/-- `CategoryDetailResource.delete`: admin-only, guarded by the live
recipe count of the category. -/
def categoryDelete (σ : DB) (uid cid : Nat) : DB × Resp :=
  match findUser σ uid with
  | none => (σ, forbidden_response "Admin privileges required to delete categories")
  | some u =>
    if !u.is_admin then
      (σ, forbidden_response "Admin privileges required to delete categories")
    else
      match findCategory σ cid with
      | none => (σ, not_found_response "Category not found")
      | some _ =>
        let n := (σ.recipes.filter (fun r => r.category_id == cid)).length
        if 0 < n then
          (σ, error_response ("Cannot delete category with " ++ toString n ++
            " recipe(s). Please reassign or delete recipes first.") 400)
        else
          let cs := σ.categories.filter (fun c => !(c.id == cid))
          ({ σ with categories := cs }, success_response "Category deleted successfully" 200)

/-- One item of the `ingredients` array submitted to
`POST /recipes/{id}/ingredients/bulk`; every `Option` is key presence in
the JSON (the inner `Option` on `unit`/`notes` is JSON `null`). -/
structure IngredientItemRaw where
  name : Option String
  quantity : Option String
  unit : Option (Option String)
  notes : Option (Option String)
  order : Option Int
deriving DecidableEq, Repr

/-- One item after `IngredientCreateSchema.load`: `order` carries
`load_default=0`, so the output dict always holds the key — `some` even
when the request omitted it. -/
structure IngredientItemLoaded where
  name : String
  quantity : String
  unit : Option String
  notes : Option String
  orderField : Option Int
deriving DecidableEq, Repr

/-- `IngredientCreateSchema.load` on one item: `name` required with
length 1..100, `quantity` required with length 1..50, `unit` at most 20,
`order ≥ 0` with `load_default=0`; `none` is a `ValidationError`. -/
def loadIngredientItem (raw : IngredientItemRaw) : Option IngredientItemLoaded :=
  match raw.name, raw.quantity with
  | some n, some q =>
    if 1 ≤ n.length && n.length ≤ 100 && 1 ≤ q.length && q.length ≤ 50 &&
       (match raw.unit with
        | some (some u) => u.length ≤ 20
        | _ => true) &&
       (match raw.order with
        | some o => 0 ≤ o
        | none => true) then
      some { name := n, quantity := q,
             unit := (match raw.unit with
                      | some u => u
                      | none => none),
             notes := (match raw.notes with
                       | some x => x
                       | none => none),
             orderField := some (raw.order.getD 0) }
    else none
  | _, _ => none

/-- `IngredientBulkCreateSchema.load`: the list is required with length
1..50 and every item must load; any failure rejects the whole batch. -/
def loadBulkCreate (items : List IngredientItemRaw) : Option (List IngredientItemLoaded) :=
  if 1 ≤ items.length && items.length ≤ 50 then items.mapM loadIngredientItem
  else none

/-- Fresh autoincrement primary key for `ingredients`. -/
def nextIngredientId (σ : DB) : Nat :=
  (σ.ingredients.map (fun g => g.id)).foldr max 0 + 1

/-- The construction loop of `IngredientBulkCreateResource.post`:
`for idx, ingredient_data in enumerate(...)` with
`order=ingredient_data.get('order', idx)`. -/
def buildBulkIngredients (σ : DB) (rid : Nat) (loaded : List IngredientItemLoaded) :
    List Ingredient :=
  loaded.enum.map (fun p =>
    { id := nextIngredientId σ + p.1, name := p.2.name, quantity := p.2.quantity,
      unit := p.2.unit, notes := p.2.notes,
      order := p.2.orderField.getD (p.1 : Int), recipe_id := rid })

/-- `IngredientBulkCreateResource.post` (`app/api/v1/ingredients.py`). -/
def ingredientBulkCreate (σ : DB) (uid rid : Nat) (body : Option (List IngredientItemRaw)) :
    DB × Resp × Option (List Ingredient) :=
  match findRecipe σ rid with
  | none => (σ, not_found_response "Recipe not found", none)
  | some recipe =>
    match ownerOrAdminGate σ uid recipe.user_id with
    | none => (σ, error_response "Error adding ingredients" 500, none)
    | some false =>
      (σ, forbidden_response "You do not have permission to add ingredients to this recipe", none)
    | some true =>
      match body with
      | none => (σ, error_response "No input data provided" 400, none)
      | some items =>
        match loadBulkCreate items with
        | none => (σ, validation_error_response, none)
        | some loaded =>
          let newIngs := buildBulkIngredients σ rid loaded
          ({ σ with ingredients := σ.ingredients ++ newIngs },
           success_response (toString newIngs.length ++ " ingredients added successfully") 201,
           some newIngs)

/-- One entry of the `ingredients` array submitted to
`PUT /recipes/{id}/ingredients/bulk-update`; plain dicts, no schema
validation in the source. -/
structure IngredientUpdateRaw where
  id : Option Nat
  name : Option String
  quantity : Option String
  unit : Option (Option String)
  notes : Option (Option String)
  order : Option Int
deriving DecidableEq, Repr

/-- The per-field `if key in ingredient_data` updates. -/
def applyIngredientUpdate (e : IngredientUpdateRaw) (g : Ingredient) : Ingredient :=
  { g with
    name := e.name.getD g.name
    quantity := e.quantity.getD g.quantity
    unit := (match e.unit with
             | some u => u
             | none => g.unit)
    notes := (match e.notes with
              | some x => x
              | none => g.notes)
    order := e.order.getD g.order }

/-- Update the single row fetched by
`Ingredient.query.filter_by(id=..., recipe_id=...).first()`. -/
def updateFirstIngredient (i rid : Nat) (e : IngredientUpdateRaw) :
    List Ingredient → List Ingredient
  | [] => []
  | g :: gs =>
    if g.id == i && g.recipe_id == rid then applyIngredientUpdate e g :: gs
    else g :: updateFirstIngredient i rid e gs

/-- The entry loop of `IngredientBulkUpdateResource.put`: entries without
an `id`, or whose `id` matches no ingredient of the recipe, are skipped
(`continue` / no-op); matches are applied and counted. -/
def bulkUpdateGo (rid : Nat) : List IngredientUpdateRaw → List Ingredient → List Ingredient × Nat
  | [], gs => (gs, 0)
  | e :: es, gs =>
    match e.id with
    | none => bulkUpdateGo rid es gs
    | some i =>
      if gs.any (fun g => g.id == i && g.recipe_id == rid) then
        let p := bulkUpdateGo rid es (updateFirstIngredient i rid e gs)
        (p.1, p.2 + 1)
      else bulkUpdateGo rid es gs

/-- `IngredientBulkUpdateResource.put` (`app/api/v1/ingredients.py`);
the returned `Option Nat` is the `total_updated` field of the payload. -/
def ingredientBulkUpdate (σ : DB) (uid rid : Nat) (body : Option (List IngredientUpdateRaw)) :
    DB × Resp × Option Nat :=
  match findRecipe σ rid with
  | none => (σ, not_found_response "Recipe not found", none)
  | some recipe =>
    match ownerOrAdminGate σ uid recipe.user_id with
    | none => (σ, error_response "Error updating ingredients" 500, none)
    | some false =>
      (σ, forbidden_response "You do not have permission to update ingredients for this recipe", none)
    | some true =>
      match body with
      | none => (σ, error_response "No input data provided or missing ingredients field" 400, none)
      | some entries =>
        if entries.length == 0 then
          (σ, error_response "Ingredients must be a non-empty list" 400, none)
        else
          let p := bulkUpdateGo rid entries σ.ingredients
          ({ σ with ingredients := p.1 },
           success_response (toString p.2 ++ " ingredients updated successfully") 200,
           some p.2)

/-- One mutating API request: each constructor runs one modelled handler
on the store (`rating_insert_raced` is the commit stage of a concurrent
`POST /ratings` whose pre-check ran against a stale snapshot, so its
insert meets the store constraint directly). -/
inductive Step : DB → DB → Prop where
  | rating_post (σ : DB) (uid rid : Nat) (b : Option RatingCreateBody) :
      Step σ (ratingPost σ uid rid b).1
  | rating_insert_raced (σ : DB) (uid rid : Nat) (b : RatingCreateBody) :
      Step σ (ratingInsertStage σ uid rid b).1
  | rating_put (σ : DB) (uid rid ratingId : Nat) (b : Option RatingUpdateBody) :
      Step σ (ratingPut σ uid rid ratingId b).1
  | rating_delete (σ : DB) (uid rid ratingId : Nat) :
      Step σ (ratingDelete σ uid rid ratingId).1
  | recipe_create (σ : DB) (uid : Nat) (b : Option RecipeCreateBody) :
      Step σ (recipeCreate σ uid b).1
  | recipe_delete (σ : DB) (uid rid : Nat) :
      Step σ (recipeDelete σ uid rid).1
  | category_post (σ : DB) (uid : Nat) (b : Option CategoryCreateBody) :
      Step σ (categoryPost σ uid b).1
  | category_delete (σ : DB) (uid cid : Nat) :
      Step σ (categoryDelete σ uid cid).1
  | ingredient_bulk_create (σ : DB) (uid rid : Nat) (b : Option (List IngredientItemRaw)) :
      Step σ (ingredientBulkCreate σ uid rid b).1
  | ingredient_bulk_update (σ : DB) (uid rid : Nat) (b : Option (List IngredientUpdateRaw)) :
      Step σ (ingredientBulkUpdate σ uid rid b).1

/-- States reachable from any store holding no ratings yet, by the
modelled mutating requests. -/
inductive Reachable : DB → Prop where
  | init (σ : DB) : σ.ratings = [] → Reachable σ
  | step (σ σ' : DB) : Reachable σ → Step σ σ' → Reachable σ'

/-- No two rows of the `ratings` table share a `(user_id, recipe_id)`
pair — the invariant of the `unique_user_recipe_rating` constraint. -/
def RatingPairUnique (l : List Rating) : Prop :=
  l.Pairwise (fun a b => ¬(a.user_id = b.user_id ∧ a.recipe_id = b.recipe_id))

theorem ratingPairUnique_filter (p : Rating → Bool) {l : List Rating}
    (h : RatingPairUnique l) : RatingPairUnique (l.filter p) :=
  List.Pairwise.sublist (List.filter_sublist l) h

theorem ratingPairUnique_map_preserve (f : Rating → Rating)
    (hf : ∀ r, (f r).user_id = r.user_id ∧ (f r).recipe_id = r.recipe_id)
    {l : List Rating} (h : RatingPairUnique l) : RatingPairUnique (l.map f) := by
  refine List.Pairwise.map f ?_ h
  intro a b hab hc
  exact hab ⟨by rw [(hf a).1, (hf b).1] at hc; exact hc.1,
             by rw [(hf a).2, (hf b).2] at hc; exact hc.2⟩

theorem ratingPairUnique_append_fresh {l : List Rating} (r : Rating)
    (h : RatingPairUnique l)
    (hfresh : ∀ x ∈ l, ¬(x.user_id = r.user_id ∧ x.recipe_id = r.recipe_id)) :
    RatingPairUnique (l ++ [r]) := by
  rw [RatingPairUnique, List.pairwise_append]
  refine ⟨h, List.pairwise_singleton _ _, ?_⟩
  intro x hx y hy
  rw [List.mem_singleton] at hy
  subst hy
  exact hfresh x hx

theorem dbInsertRating_pairUnique {σ σ' : DB} {r : Rating}
    (hins : dbInsertRating σ r = some σ')
    (h : RatingPairUnique σ.ratings) : RatingPairUnique σ'.ratings := by
  unfold dbInsertRating at hins
  split at hins
  · exact absurd hins (by simp)
  · next hany =>
    cases hins
    refine ratingPairUnique_append_fresh r h ?_
    intro x hx hc
    exact hany (List.any_eq_true.mpr ⟨x, hx, by simp [hc.1, hc.2]⟩)

theorem ratingInsertStage_pairUnique (σ : DB) (uid rid : Nat) (b : RatingCreateBody)
    (h : RatingPairUnique σ.ratings) :
    RatingPairUnique (ratingInsertStage σ uid rid b).1.ratings := by
  unfold ratingInsertStage
  split
  · next σ' heq => exact dbInsertRating_pairUnique heq h
  · exact h

theorem ratingPost_pairUnique (σ : DB) (uid rid : Nat) (b : Option RatingCreateBody)
    (h : RatingPairUnique σ.ratings) :
    RatingPairUnique (ratingPost σ uid rid b).1.ratings := by
  unfold ratingPost
  split
  · exact h
  · split
    · exact h
    · split
      · exact h
      · split
        · exact ratingInsertStage_pairUnique σ uid rid _ h
        · exact h

theorem ratingPut_pairUnique (σ : DB) (uid rid ratingId : Nat) (b : Option RatingUpdateBody)
    (h : RatingPairUnique σ.ratings) :
    RatingPairUnique (ratingPut σ uid rid ratingId b).1.ratings := by
  unfold ratingPut
  split
  · exact h
  · split
    · exact h
    · split
      · split
        · exact h
        · split
          · refine ratingPairUnique_map_preserve _ (fun r => ?_) h
            dsimp only
            split
            · simp [applyRatingUpdate]
            · exact ⟨rfl, rfl⟩
          · exact h
      · exact h

theorem ratingDelete_pairUnique (σ : DB) (uid rid ratingId : Nat)
    (h : RatingPairUnique σ.ratings) :
    RatingPairUnique (ratingDelete σ uid rid ratingId).1.ratings := by
  unfold ratingDelete
  split
  · exact h
  · split
    · exact h
    · split
      · exact ratingPairUnique_filter _ h
      · exact h

theorem recipeDelete_pairUnique (σ : DB) (uid rid : Nat)
    (h : RatingPairUnique σ.ratings) :
    RatingPairUnique (recipeDelete σ uid rid).1.ratings := by
  unfold recipeDelete
  split
  · exact h
  · split
    · exact h
    · exact h
    · exact ratingPairUnique_filter _ h

theorem recipeCreate_ratings_eq (σ : DB) (uid : Nat) (b : Option RecipeCreateBody) :
    (recipeCreate σ uid b).1.ratings = σ.ratings := by
  unfold recipeCreate
  split
  · rfl
  · split
    · rfl
    · split
      · rfl
      · rfl

theorem categoryPost_ratings_eq (σ : DB) (uid : Nat) (b : Option CategoryCreateBody) :
    (categoryPost σ uid b).1.ratings = σ.ratings := by
  unfold categoryPost
  split
  · rfl
  · split
    · rfl
    · split
      · rfl
      · split
        · rfl
        · split
          · rfl
          · dsimp only
            split
            · next σ' heq =>
              unfold dbInsertCategory at heq
              split at heq
              · exact absurd heq (by simp)
              · cases heq; rfl
            · rfl

theorem categoryDelete_ratings_eq (σ : DB) (uid cid : Nat) :
    (categoryDelete σ uid cid).1.ratings = σ.ratings := by
  unfold categoryDelete
  split
  · rfl
  · split
    · rfl
    · split
      · rfl
      · dsimp only
        split
        · rfl
        · rfl

theorem ingredientBulkCreate_ratings_eq (σ : DB) (uid rid : Nat)
    (b : Option (List IngredientItemRaw)) :
    (ingredientBulkCreate σ uid rid b).1.ratings = σ.ratings := by
  unfold ingredientBulkCreate
  split
  · rfl
  · split
    · rfl
    · rfl
    · split
      · rfl
      · split
        · rfl
        · rfl

theorem ingredientBulkUpdate_ratings_eq (σ : DB) (uid rid : Nat)
    (b : Option (List IngredientUpdateRaw)) :
    (ingredientBulkUpdate σ uid rid b).1.ratings = σ.ratings := by
  unfold ingredientBulkUpdate
  split
  · rfl
  · split
    · rfl
    · rfl
    · split
      · rfl
      · split
        · rfl
        · rfl

theorem step_pairUnique {σ σ' : DB} (hs : Step σ σ')
    (h : RatingPairUnique σ.ratings) : RatingPairUnique σ'.ratings := by
  cases hs with
  | rating_post uid rid b => exact ratingPost_pairUnique σ uid rid b h
  | rating_insert_raced uid rid b => exact ratingInsertStage_pairUnique σ uid rid b h
  | rating_put uid rid ratingId b => exact ratingPut_pairUnique σ uid rid ratingId b h
  | rating_delete uid rid ratingId => exact ratingDelete_pairUnique σ uid rid ratingId h
  | recipe_create uid b => rw [recipeCreate_ratings_eq]; exact h
  | recipe_delete uid rid => exact recipeDelete_pairUnique σ uid rid h
  | category_post uid b => rw [categoryPost_ratings_eq]; exact h
  | category_delete uid cid => rw [categoryDelete_ratings_eq]; exact h
  | ingredient_bulk_create uid rid b => rw [ingredientBulkCreate_ratings_eq]; exact h
  | ingredient_bulk_update uid rid b => rw [ingredientBulkUpdate_ratings_eq]; exact h

theorem reachable_pairUnique {σ : DB} (h : Reachable σ) : RatingPairUnique σ.ratings := by
  induction h with
  | init σ h0 => rw [h0]; exact List.Pairwise.nil
  | step σ σ' _ hs ih => exact step_pairUnique hs ih

/-- At most one row matches a `(user, recipe)` pair in a pairwise-unique
table. -/
theorem pairUnique_count_le_one {l : List Rating} (h : RatingPairUnique l)
    (u rid : Nat) :
    (l.filter (fun x => x.user_id == u && x.recipe_id == rid)).length ≤ 1 := by
  induction l with
  | nil => simp
  | cons a t ih =>
    rw [RatingPairUnique, List.pairwise_cons] at h
    rw [List.filter_cons]
    split
    · next ha =>
      have hz : t.filter (fun x => x.user_id == u && x.recipe_id == rid) = [] := by
        rw [List.eq_nil_iff_forall_not_mem]
        intro x hx
        rw [List.mem_filter] at hx
        simp only [Bool.and_eq_true, beq_iff_eq] at ha hx
        exact h.1 x hx.1 ⟨ha.1.trans hx.2.1.symm, ha.2.trans hx.2.2.symm⟩
      simp [hz]
    · exact ih h.2

/-- A small store used to instantiate theorems: one user, one category,
one published recipe, no ratings yet. -/
def exampleDB0 : DB :=
  { users := [{ id := 1, username := "alice", is_admin := false }]
    categories := [{ id := 1, name := "Main", slug := "main", description := none }]
    recipes := [{ id := 1, title := "Pasta", slug := "pasta",
                  instructions := "Boil the pasta.", is_published := true,
                  user_id := 1, category_id := 1 }]
    ingredients := []
    ratings := [] }

/-- `exampleDB0` after user 1 rated recipe 1 with score 5. -/
def exampleDB1 : DB :=
  { exampleDB0 with ratings := [{ id := 1, score := 5, comment := none, user_id := 1, recipe_id := 1 }] }

/-- C1: in every reachable store at most one rating row matches any
`(user_id, recipe_id)` pair; a `POST /recipes/{id}/ratings` by a user who
already has a rating on that recipe answers 400 already-rated and leaves
the store unchanged; and a duplicate insert that reaches the store
constraint (the raced commit stage) is translated to the same 400
already-rated error rather than an unexpected failure. -/
theorem claim1_rating_pair_unique_and_duplicate_400
    (σ : DB) (u rid : Nat) (b : Option RatingCreateBody) (b' : RatingCreateBody)
    (hreach : Reachable σ)
    (hrec : (findRecipe σ rid).isSome = true)
    (hdup : alreadyRated σ u rid = true) :
    (∀ u' r', (σ.ratings.filter (fun x => x.user_id == u' && x.recipe_id == r')).length ≤ 1) ∧
    ratingPost σ u rid b =
      (σ, error_response "You have already rated this recipe. Use PUT to update your rating." 400) ∧
    ratingInsertStage σ u rid b' =
      (σ, error_response "You have already rated this recipe" 400) := by
  refine ⟨fun u' r' => pairUnique_count_le_one (reachable_pairUnique hreach) u' r', ?_, ?_⟩
  · obtain ⟨r, hr⟩ := Option.isSome_iff_exists.mp hrec
    simp [ratingPost, hr, hdup]
  · unfold alreadyRated at hdup
    simp [ratingInsertStage, dbInsertRating, hdup]

/-- Witness for C1 at the concrete store `exampleDB1`, reached from
`exampleDB0` by one successful rating POST. -/
theorem claim1_witness :
    Reachable exampleDB1 ∧
    (findRecipe exampleDB1 1).isSome = true ∧
    alreadyRated exampleDB1 1 1 = true ∧
    ((∀ u' r',
        (exampleDB1.ratings.filter (fun x => x.user_id == u' && x.recipe_id == r')).length ≤ 1) ∧
     ratingPost exampleDB1 1 1 (some { score := 4, comment := none }) =
       (exampleDB1,
        error_response "You have already rated this recipe. Use PUT to update your rating." 400) ∧
     ratingInsertStage exampleDB1 1 1 { score := 4, comment := none } =
       (exampleDB1, error_response "You have already rated this recipe" 400)) := by
  have h0 : Reachable exampleDB0 := Reachable.init _ rfl
  have hstep : Step exampleDB0 exampleDB1 := by
    have h := Step.rating_post exampleDB0 1 1 (some { score := 5, comment := none })
    rwa [show (ratingPost exampleDB0 1 1 (some { score := 5, comment := none })).1 = exampleDB1
      from rfl] at h
  have hreach : Reachable exampleDB1 := Reachable.step _ _ h0 hstep
  exact ⟨hreach, rfl, rfl,
    claim1_rating_pair_unique_and_duplicate_400 exampleDB1 1 1
      (some { score := 4, comment := none }) { score := 4, comment := none }
      hreach rfl rfl⟩

theorem rat_floor_eq_intFloor (q : ℚ) : (q.floor : ℤ) = ⌊q⌋ :=
  (Rat.floor_def' q).trans Rat.floor_def.symm

theorem roundHalfEven_intCast (n : ℤ) : roundHalfEven (n : ℚ) = n := by
  unfold roundHalfEven
  rw [rat_floor_eq_intFloor, Int.floor_intCast]
  norm_num

theorem floor_le_roundHalfEven (x : ℚ) : ⌊x⌋ ≤ roundHalfEven x := by
  unfold roundHalfEven
  rw [rat_floor_eq_intFloor]
  dsimp only
  split_ifs <;> omega

theorem pyRound2_idem (q : ℚ) : pyRound2 (pyRound2 q) = pyRound2 q := by
  unfold pyRound2
  have h : ((roundHalfEven (q * 100) : ℤ) : ℚ) / 100 * 100 = ((roundHalfEven (q * 100) : ℤ) : ℚ) := by
    field_simp
  rw [h, roundHalfEven_intCast]

theorem one_le_pyRound2 {q : ℚ} (h : 1 ≤ q) : 1 ≤ pyRound2 q := by
  unfold pyRound2
  have h100 : (100 : ℤ) ≤ ⌊q * 100⌋ := Int.le_floor.mpr (by push_cast; linarith)
  have h2 := floor_le_roundHalfEven (q * 100)
  have h3 : (100 : ℤ) ≤ roundHalfEven (q * 100) := le_trans h100 h2
  rw [le_div_iff₀ (by norm_num : (0:ℚ) < 100)]
  have h4 : ((100 : ℤ) : ℚ) ≤ ((roundHalfEven (q * 100) : ℤ) : ℚ) := Int.cast_le.mpr h3
  push_cast at h4 ⊢
  linarith

theorem length_le_sumScores {rs : List Rating} (h : ∀ r ∈ rs, 1 ≤ r.score) :
    (rs.length : ℤ) ≤ sumScores rs := by
  induction rs with
  | nil => simp [sumScores]
  | cons a t ih =>
    have ha := h a (List.mem_cons_self a t)
    have ht := ih (fun r hr => h r (List.mem_cons_of_mem a hr))
    simp only [sumScores, List.map_cons, List.sum_cons, List.length_cons] at *
    push_cast
    linarith

theorem one_le_avg {rs : List Rating} (hne : rs.length ≠ 0)
    (h : ∀ r ∈ rs, 1 ≤ r.score) :
    1 ≤ (sumScores rs : ℚ) / (rs.length : ℚ) := by
  have hlen : (0 : ℚ) < (rs.length : ℚ) := by
    have : 0 < rs.length := Nat.pos_of_ne_zero hne
    exact_mod_cast this
  rw [le_div_iff₀ hlen, one_mul]
  exact_mod_cast length_le_sumScores h

theorem get_average_rating_none {σ : DB} {rid : Nat}
    (hz : (ratingsFor σ rid).length = 0) : get_average_rating σ rid = none := by
  unfold get_average_rating average_rating
  simp only [hz, if_pos]

theorem get_average_rating_eq {σ : DB} {rid : Nat}
    (hne : (ratingsFor σ rid).length ≠ 0)
    (hsc : ∀ r ∈ ratingsFor σ rid, 1 ≤ r.score) :
    get_average_rating σ rid =
      some (pyRound2 ((sumScores (ratingsFor σ rid) : ℚ) / ((ratingsFor σ rid).length : ℚ))) := by
  unfold get_average_rating average_rating
  rw [if_neg hne]
  have h1 : 1 ≤ pyRound2 ((sumScores (ratingsFor σ rid) : ℚ) / ((ratingsFor σ rid).length : ℚ)) :=
    one_le_pyRound2 (one_le_avg hne hsc)
  rw [if_neg (by intro h0; rw [h0] at h1; norm_num at h1), pyRound2_idem]

/-- C2: wherever a recipe average rating is surfaced — the
`average_rating` field of the stats endpoint payload and the
`get_average_rating` serializer used by the recipe list/detail
responses — it is absent (`none`, not zero) when the recipe has no
ratings, and equals `round(sum / count, 2)` when it has at least one. -/
theorem claim2_average_absent_or_rounded
    (σ : DB) (rid : Nat) (recipe : Recipe)
    (hrec : findRecipe σ rid = some recipe)
    (hsc : ∀ r ∈ ratingsFor σ rid, 1 ≤ r.score) :
    ((ratingsFor σ rid).length = 0 →
      (ratingStatsGet σ rid).2.map (fun sd => sd.average_rating) = some none ∧
      get_average_rating σ rid = none) ∧
    ((ratingsFor σ rid).length ≠ 0 →
      (ratingStatsGet σ rid).2.map (fun sd => sd.average_rating) =
        some (some (pyRound2 ((sumScores (ratingsFor σ rid) : ℚ) / ((ratingsFor σ rid).length : ℚ)))) ∧
      get_average_rating σ rid =
        some (pyRound2 ((sumScores (ratingsFor σ rid) : ℚ) / ((ratingsFor σ rid).length : ℚ)))) ∧
    (recipeDetailData σ recipe).average_rating = get_average_rating σ recipe.id := by
  refine ⟨fun hz => ?_, fun hne => ?_, rfl⟩
  · constructor
    · simp only [ratingStatsGet, hrec]
      rw [if_pos hz]
      rfl
    · exact get_average_rating_none hz
  · constructor
    · simp only [ratingStatsGet, hrec]
      rw [if_neg hne]
      rfl
    · exact get_average_rating_eq hne hsc

/-- Witness for C2 at `exampleDB1` (one rating of score 5 on recipe 1). -/
theorem claim2_witness :
    findRecipe exampleDB1 1 =
      some { id := 1, title := "Pasta", slug := "pasta", instructions := "Boil the pasta.",
             is_published := true, user_id := 1, category_id := 1 } ∧
    (∀ r ∈ ratingsFor exampleDB1 1, 1 ≤ r.score) ∧
    (((ratingsFor exampleDB1 1).length = 0 →
      (ratingStatsGet exampleDB1 1).2.map (fun sd => sd.average_rating) = some none ∧
      get_average_rating exampleDB1 1 = none) ∧
    ((ratingsFor exampleDB1 1).length ≠ 0 →
      (ratingStatsGet exampleDB1 1).2.map (fun sd => sd.average_rating) =
        some (some (pyRound2 ((sumScores (ratingsFor exampleDB1 1) : ℚ) / ((ratingsFor exampleDB1 1).length : ℚ)))) ∧
      get_average_rating exampleDB1 1 =
        some (pyRound2 ((sumScores (ratingsFor exampleDB1 1) : ℚ) / ((ratingsFor exampleDB1 1).length : ℚ)))) ∧
    (recipeDetailData exampleDB1
      { id := 1, title := "Pasta", slug := "pasta", instructions := "Boil the pasta.",
        is_published := true, user_id := 1, category_id := 1 }).average_rating =
      get_average_rating exampleDB1 1) :=
  ⟨by decide, by decide,
   claim2_average_absent_or_rounded exampleDB1 1
     { id := 1, title := "Pasta", slug := "pasta", instructions := "Boil the pasta.",
       is_published := true, user_id := 1, category_id := 1 }
     (by decide) (by decide)⟩

theorem countScore_partition {rs : List Rating}
    (h : ∀ r ∈ rs, 1 ≤ r.score ∧ r.score ≤ 5) :
    countScore rs 5 + countScore rs 4 + countScore rs 3 +
      countScore rs 2 + countScore rs 1 = rs.length := by
  induction rs with
  | nil => rfl
  | cons a t ih =>
    have ha := h a (List.mem_cons_self a t)
    have ih' := ih (fun r hr => h r (List.mem_cons_of_mem a hr))
    have hcase : a.score = 1 ∨ a.score = 2 ∨ a.score = 3 ∨ a.score = 4 ∨ a.score = 5 := by omega
    simp only [countScore, List.filter_cons, List.length_cons] at ih' ⊢
    rcases hcase with h1 | h1 | h1 | h1 | h1 <;>
      simp only [h1, beq_iff_eq, reduceIte, show ((1:Int) = 5) = False by simp,
        show ((1:Int) = 4) = False by simp, show ((1:Int) = 3) = False by simp,
        show ((1:Int) = 2) = False by simp, show ((2:Int) = 5) = False by simp,
        show ((2:Int) = 4) = False by simp, show ((2:Int) = 3) = False by simp,
        show ((2:Int) = 1) = False by simp, show ((3:Int) = 5) = False by simp,
        show ((3:Int) = 4) = False by simp, show ((3:Int) = 2) = False by simp,
        show ((3:Int) = 1) = False by simp, show ((4:Int) = 5) = False by simp,
        show ((4:Int) = 3) = False by simp, show ((4:Int) = 2) = False by simp,
        show ((4:Int) = 1) = False by simp, show ((5:Int) = 4) = False by simp,
        show ((5:Int) = 3) = False by simp, show ((5:Int) = 2) = False by simp,
        show ((5:Int) = 1) = False by simp] <;>
      simp only [if_true, if_false, List.length_cons] <;> omega

/-- C7: for a recipe with at least one rating the stats distribution
counts, per score value 1..5, exactly the ratings with that score; the
five buckets sum to the total; and every percentage is its bucket count
divided by the total, times 100, rounded to 1 decimal. -/
theorem claim7_distribution_counts_and_percentages
    (σ : DB) (rid : Nat) (recipe : Recipe)
    (hrec : findRecipe σ rid = some recipe)
    (hne : (ratingsFor σ rid).length ≠ 0)
    (hsc : ∀ r ∈ ratingsFor σ rid, 1 ≤ r.score ∧ r.score ≤ 5) :
    ∃ sd, (ratingStatsGet σ rid).2 = some sd ∧
      sd.total_ratings = (ratingsFor σ rid).length ∧
      sd.distribution =
        ⟨countScore (ratingsFor σ rid) 5, countScore (ratingsFor σ rid) 4,
         countScore (ratingsFor σ rid) 3, countScore (ratingsFor σ rid) 2,
         countScore (ratingsFor σ rid) 1⟩ ∧
      sd.distribution.five + sd.distribution.four + sd.distribution.three +
        sd.distribution.two + sd.distribution.one = sd.total_ratings ∧
      sd.distribution_percentages =
        some (pyRound1 ((countScore (ratingsFor σ rid) 5 : ℚ) / ((ratingsFor σ rid).length : ℚ) * 100),
              pyRound1 ((countScore (ratingsFor σ rid) 4 : ℚ) / ((ratingsFor σ rid).length : ℚ) * 100),
              pyRound1 ((countScore (ratingsFor σ rid) 3 : ℚ) / ((ratingsFor σ rid).length : ℚ) * 100),
              pyRound1 ((countScore (ratingsFor σ rid) 2 : ℚ) / ((ratingsFor σ rid).length : ℚ) * 100),
              pyRound1 ((countScore (ratingsFor σ rid) 1 : ℚ) / ((ratingsFor σ rid).length : ℚ) * 100)) := by
  refine ⟨{ total_ratings := (ratingsFor σ rid).length
            average_rating :=
              some (pyRound2 ((sumScores (ratingsFor σ rid) : ℚ) / ((ratingsFor σ rid).length : ℚ)))
            distribution :=
              ⟨countScore (ratingsFor σ rid) 5, countScore (ratingsFor σ rid) 4,
               countScore (ratingsFor σ rid) 3, countScore (ratingsFor σ rid) 2,
               countScore (ratingsFor σ rid) 1⟩
            distribution_percentages :=
              some (pyRound1 ((countScore (ratingsFor σ rid) 5 : ℚ) / ((ratingsFor σ rid).length : ℚ) * 100),
                    pyRound1 ((countScore (ratingsFor σ rid) 4 : ℚ) / ((ratingsFor σ rid).length : ℚ) * 100),
                    pyRound1 ((countScore (ratingsFor σ rid) 3 : ℚ) / ((ratingsFor σ rid).length : ℚ) * 100),
                    pyRound1 ((countScore (ratingsFor σ rid) 2 : ℚ) / ((ratingsFor σ rid).length : ℚ) * 100),
                    pyRound1 ((countScore (ratingsFor σ rid) 1 : ℚ) / ((ratingsFor σ rid).length : ℚ) * 100)) },
    ?_, rfl, rfl, countScore_partition hsc, rfl⟩
  simp only [ratingStatsGet, hrec]
  rw [if_neg hne]

/-- Witness for C7 at `exampleDB1`. -/
theorem claim7_witness :
    findRecipe exampleDB1 1 =
      some { id := 1, title := "Pasta", slug := "pasta", instructions := "Boil the pasta.",
             is_published := true, user_id := 1, category_id := 1 } ∧
    (ratingsFor exampleDB1 1).length ≠ 0 ∧
    (∀ r ∈ ratingsFor exampleDB1 1, 1 ≤ r.score ∧ r.score ≤ 5) ∧
    (∃ sd, (ratingStatsGet exampleDB1 1).2 = some sd ∧
      sd.total_ratings = (ratingsFor exampleDB1 1).length ∧
      sd.distribution =
        ⟨countScore (ratingsFor exampleDB1 1) 5, countScore (ratingsFor exampleDB1 1) 4,
         countScore (ratingsFor exampleDB1 1) 3, countScore (ratingsFor exampleDB1 1) 2,
         countScore (ratingsFor exampleDB1 1) 1⟩ ∧
      sd.distribution.five + sd.distribution.four + sd.distribution.three +
        sd.distribution.two + sd.distribution.one = sd.total_ratings ∧
      sd.distribution_percentages =
        some (pyRound1 ((countScore (ratingsFor exampleDB1 1) 5 : ℚ) / ((ratingsFor exampleDB1 1).length : ℚ) * 100),
              pyRound1 ((countScore (ratingsFor exampleDB1 1) 4 : ℚ) / ((ratingsFor exampleDB1 1).length : ℚ) * 100),
              pyRound1 ((countScore (ratingsFor exampleDB1 1) 3 : ℚ) / ((ratingsFor exampleDB1 1).length : ℚ) * 100),
              pyRound1 ((countScore (ratingsFor exampleDB1 1) 2 : ℚ) / ((ratingsFor exampleDB1 1).length : ℚ) * 100),
              pyRound1 ((countScore (ratingsFor exampleDB1 1) 1 : ℚ) / ((ratingsFor exampleDB1 1).length : ℚ) * 100))) :=
  ⟨by decide, by decide, by decide,
   claim7_distribution_counts_and_percentages exampleDB1 1
     { id := 1, title := "Pasta", slug := "pasta", instructions := "Boil the pasta.",
       is_published := true, user_id := 1, category_id := 1 }
     (by decide) (by decide) (by decide)⟩

theorem findRecipe_id {σ : DB} {rid : Nat} {r : Recipe}
    (h : findRecipe σ rid = some r) : r.id = rid := by
  have := List.find?_some h
  simpa using this

/-- A store with an unpublished recipe owned by user 1, a non-admin
stranger (user 2) and an admin stranger (user 3). -/
def exampleDBunpub : DB :=
  { users := [{ id := 1, username := "alice", is_admin := false },
              { id := 2, username := "bob", is_admin := false },
              { id := 3, username := "root", is_admin := true }]
    categories := [{ id := 1, name := "Main", slug := "main", description := none }]
    recipes := [{ id := 7, title := "Secret Pie", slug := "secret-pie",
                  instructions := "Bake the pie.", is_published := false,
                  user_id := 1, category_id := 1 }]
    ingredients := [{ id := 1, name := "Flour", quantity := "2", unit := some "cups",
                      notes := none, order := 1, recipe_id := 7 }]
    ratings := [] }

/-- C3 evaluated on the code at the failing input: on the unpublished
recipe 7, the anonymous caller, the authenticated stranger (user 2) and
the recipe's own non-admin **owner** (user 1) are all answered 403 — the
owner comparison pits the string JWT identity against the integer
`user_id` and never passes — while the admin (user 3) receives 200 with
the nested detail.  The claim promises the owner the admin's 200
outcome; the code gives the owner the stranger's 403. -/
theorem claim3_owner_forbidden_evaluation :
    recipeDetailGet exampleDBunpub (some 1) 7 =
      (forbidden_response "This recipe is not published", none) ∧
    recipeDetailGet exampleDBunpub none 7 =
      (forbidden_response "This recipe is not published", none) ∧
    recipeDetailGet exampleDBunpub (some 2) 7 =
      (forbidden_response "This recipe is not published", none) ∧
    recipeDetailGet exampleDBunpub (some 3) 7 =
      (success_response "Recipe retrieved successfully" 200,
       some (recipeDetailData exampleDBunpub
         { id := 7, title := "Secret Pie", slug := "secret-pie",
           instructions := "Bake the pie.", is_published := false,
           user_id := 1, category_id := 1 })) ∧
    forbidden_response "This recipe is not published" ≠
      success_response "Recipe retrieved successfully" 200 := by decide

/-- `exampleDB1` with a second, admin user who is not the rating's
author. -/
def exampleDB1admin : DB :=
  { exampleDB1 with
    users := exampleDB1.users ++ [{ id := 2, username := "root", is_admin := true }] }

/-- C4 evaluated on the code at the failing input: the author (user 1)
asking to update or delete their own rating is answered 403 with the
store unchanged — the author check compares the integer `user_id` to the
string JWT identity and never passes — and so is every other caller,
here the admin (user 2).  No rating update or delete can ever succeed,
so the claimed success of the author is false of the code. -/
theorem claim4_author_forbidden_evaluation :
    ratingPut exampleDB1admin 1 1 1 (some { score := some 2, comment := none }) =
      (exampleDB1admin, forbidden_response "You can only update your own ratings") ∧
    ratingDelete exampleDB1admin 1 1 1 =
      (exampleDB1admin, forbidden_response "You can only delete your own ratings") ∧
    ratingPut exampleDB1admin 2 1 1 (some { score := some 2, comment := none }) =
      (exampleDB1admin, forbidden_response "You can only update your own ratings") ∧
    ratingDelete exampleDB1admin 2 1 1 =
      (exampleDB1admin, forbidden_response "You can only delete your own ratings") ∧
    forbidden_response "You can only update your own ratings" ≠
      success_response "Rating updated successfully" 200 := by decide

/-- C8: an admin `DELETE` of a category that still classifies at least
one recipe answers 400 and changes nothing; with zero recipes the delete
succeeds, removing exactly that category and touching no recipe. -/
theorem claim8_category_delete_guarded_by_recipes
    (σ : DB) (uid cid : Nat) (u : User) (cat : Category)
    (hu : findUser σ uid = some u) (hadm : u.is_admin = true)
    (hcat : findCategory σ cid = some cat) :
    (0 < (σ.recipes.filter (fun r => r.category_id == cid)).length →
      categoryDelete σ uid cid =
        (σ, error_response ("Cannot delete category with " ++
          toString (σ.recipes.filter (fun r => r.category_id == cid)).length ++
          " recipe(s). Please reassign or delete recipes first.") 400)) ∧
    ((σ.recipes.filter (fun r => r.category_id == cid)).length = 0 →
      (categoryDelete σ uid cid).2 = success_response "Category deleted successfully" 200 ∧
      (categoryDelete σ uid cid).1.categories = σ.categories.filter (fun c => !(c.id == cid)) ∧
      (categoryDelete σ uid cid).1.recipes = σ.recipes ∧
      (categoryDelete σ uid cid).1.ratings = σ.ratings ∧
      (categoryDelete σ uid cid).1.ingredients = σ.ingredients ∧
      (categoryDelete σ uid cid).1.users = σ.users) := by
  constructor
  · intro hpos
    simp [categoryDelete, hu, hadm, hcat, hpos]
  · intro hzero
    have hnotpos : ¬ 0 < (σ.recipes.filter (fun r => r.category_id == cid)).length := by omega
    refine ⟨?_, ?_, ?_, ?_, ?_, ?_⟩ <;>
      simp [categoryDelete, hu, hadm, hcat, hnotpos]

/-- A store with an admin, one empty category and one category that still
has a recipe. -/
def exampleDBcats : DB :=
  { users := [{ id := 1, username := "root", is_admin := true },
              { id := 2, username := "alice", is_admin := false }]
    categories := [{ id := 1, name := "Main", slug := "main", description := none },
                   { id := 2, name := "Empty", slug := "empty", description := none }]
    recipes := [{ id := 1, title := "Pasta", slug := "pasta",
                  instructions := "Boil the pasta.", is_published := true,
                  user_id := 2, category_id := 1 }]
    ingredients := []
    ratings := [] }

/-- Witness for C8: category 1 holds one recipe. -/
theorem claim8_witness :
    findUser exampleDBcats 1 = some { id := 1, username := "root", is_admin := true } ∧
    ({ id := 1, username := "root", is_admin := true } : User).is_admin = true ∧
    findCategory exampleDBcats 1 = some { id := 1, name := "Main", slug := "main", description := none } ∧
    ((0 < (exampleDBcats.recipes.filter (fun r => r.category_id == 1)).length →
      categoryDelete exampleDBcats 1 1 =
        (exampleDBcats, error_response ("Cannot delete category with " ++
          toString (exampleDBcats.recipes.filter (fun r => r.category_id == 1)).length ++
          " recipe(s). Please reassign or delete recipes first.") 400)) ∧
    ((exampleDBcats.recipes.filter (fun r => r.category_id == 1)).length = 0 →
      (categoryDelete exampleDBcats 1 1).2 = success_response "Category deleted successfully" 200 ∧
      (categoryDelete exampleDBcats 1 1).1.categories =
        exampleDBcats.categories.filter (fun c => !(c.id == 1)) ∧
      (categoryDelete exampleDBcats 1 1).1.recipes = exampleDBcats.recipes ∧
      (categoryDelete exampleDBcats 1 1).1.ratings = exampleDBcats.ratings ∧
      (categoryDelete exampleDBcats 1 1).1.ingredients = exampleDBcats.ingredients ∧
      (categoryDelete exampleDBcats 1 1).1.users = exampleDBcats.users)) :=
  ⟨by decide, by decide, by decide,
   claim8_category_delete_guarded_by_recipes exampleDBcats 1 1
     { id := 1, username := "root", is_admin := true }
     { id := 1, name := "Main", slug := "main", description := none }
     (by decide) (by decide) (by decide)⟩

/-- The `(id, recipe_id)` key of an ingredient row; bulk updates never
change it. -/
def ingKey (g : Ingredient) : Nat × Nat := (g.id, g.recipe_id)

/-- How many submitted entries match an ingredient of the recipe in the
table `gs` — the count the claim compares `total_updated` against. -/
def matchedCount (gs : List Ingredient) (rid : Nat) (entries : List IngredientUpdateRaw) : Nat :=
  entries.countP (fun e =>
    match e.id with
    | some i => gs.any (fun g => g.id == i && g.recipe_id == rid)
    | none => false)

theorem applyIngredientUpdate_key (e : IngredientUpdateRaw) (g : Ingredient) :
    ingKey (applyIngredientUpdate e g) = ingKey g := rfl

theorem updateFirstIngredient_keys (i rid : Nat) (e : IngredientUpdateRaw) :
    ∀ gs : List Ingredient, (updateFirstIngredient i rid e gs).map ingKey = gs.map ingKey := by
  intro gs
  induction gs with
  | nil => rfl
  | cons g t ih =>
    unfold updateFirstIngredient
    split
    · simp [applyIngredientUpdate_key]
    · simp [ih]

theorem any_key_eq {gs₁ gs₂ : List Ingredient} (h : gs₁.map ingKey = gs₂.map ingKey)
    (i rid : Nat) :
    gs₁.any (fun g => g.id == i && g.recipe_id == rid) =
      gs₂.any (fun g => g.id == i && g.recipe_id == rid) := by
  have h1 : ∀ gs : List Ingredient,
      gs.any (fun g => g.id == i && g.recipe_id == rid) =
        (gs.map ingKey).any (fun p => p.1 == i && p.2 == rid) := by
    intro gs
    induction gs with
    | nil => rfl
    | cons g t ih =>
      simp only [List.any_cons, List.map_cons, ih]
      rfl
  rw [h1, h1, h]

theorem matchedCount_key_eq {gs₁ gs₂ : List Ingredient}
    (h : gs₁.map ingKey = gs₂.map ingKey) (rid : Nat) (entries : List IngredientUpdateRaw) :
    matchedCount gs₁ rid entries = matchedCount gs₂ rid entries := by
  unfold matchedCount
  refine List.countP_congr ?_
  intro e _
  cases hid : e.id with
  | none => simp only [hid]
  | some i =>
    simp only [hid]
    rw [any_key_eq h i rid]

theorem bulkUpdateGo_keys (rid : Nat) :
    ∀ (entries : List IngredientUpdateRaw) (gs : List Ingredient),
      (bulkUpdateGo rid entries gs).1.map ingKey = gs.map ingKey := by
  intro entries
  induction entries with
  | nil => intro gs; rfl
  | cons e es ih =>
    intro gs
    unfold bulkUpdateGo
    cases e.id with
    | none => exact ih gs
    | some i =>
      dsimp only
      split
      · rw [ih (updateFirstIngredient i rid e gs), updateFirstIngredient_keys]
      · exact ih gs

theorem bulkUpdateGo_count (rid : Nat) :
    ∀ (entries : List IngredientUpdateRaw) (gs : List Ingredient),
      (bulkUpdateGo rid entries gs).2 = matchedCount gs rid entries := by
  intro entries
  induction entries with
  | nil => intro gs; rfl
  | cons e es ih =>
    intro gs
    unfold bulkUpdateGo
    cases hid : e.id with
    | none =>
      simp only [hid]
      rw [ih gs]
      unfold matchedCount
      rw [List.countP_cons]
      simp [hid]
    | some i =>
      simp only [hid]
      split
      · next hany =>
        rw [ih (updateFirstIngredient i rid e gs),
          matchedCount_key_eq (updateFirstIngredient_keys i rid e gs) rid es]
        unfold matchedCount
        rw [List.countP_cons]
        simp [hid, hany]
      · next hany =>
        rw [ih gs]
        unfold matchedCount
        rw [List.countP_cons]
        simp only [Bool.not_eq_true] at hany
        simp [hid, hany]

theorem mem_updateFirstIngredient_of_ne {g : Ingredient} {i rid : Nat}
    (e : IngredientUpdateRaw) (hne : g.id ≠ i) :
    ∀ {gs : List Ingredient}, g ∈ gs → g ∈ updateFirstIngredient i rid e gs := by
  intro gs hmem
  induction gs with
  | nil => cases hmem
  | cons h t ih =>
    unfold updateFirstIngredient
    split
    · next hcond =>
      rcases List.mem_cons.mp hmem with rfl | hmem'
      · simp only [Bool.and_eq_true, beq_iff_eq] at hcond
        exact absurd hcond.1 hne
      · exact List.mem_cons_of_mem _ hmem'
    · rcases List.mem_cons.mp hmem with rfl | hmem'
      · exact List.mem_cons_self _ _
      · exact List.mem_cons_of_mem _ (ih hmem')

theorem bulkUpdateGo_untouched (rid : Nat) {g : Ingredient} :
    ∀ (entries : List IngredientUpdateRaw) (gs : List Ingredient),
      g ∈ gs → (∀ e ∈ entries, e.id ≠ some g.id) →
      g ∈ (bulkUpdateGo rid entries gs).1 := by
  intro entries
  induction entries with
  | nil => intro gs hg _; exact hg
  | cons e es ih =>
    intro gs hg hids
    unfold bulkUpdateGo
    have hes : ∀ e' ∈ es, e'.id ≠ some g.id :=
      fun e' he' => hids e' (List.mem_cons_of_mem e he')
    cases hid : e.id with
    | none => exact ih gs hg hes
    | some i =>
      have hne : g.id ≠ i := by
        intro hcontra
        exact hids e (List.mem_cons_self e es) (by rw [hid, hcontra])
      dsimp only
      split
      · exact ih _ (mem_updateFirstIngredient_of_ne e hne hg) hes
      · exact ih gs hg hes

theorem ids_updateFirstIngredient (i rid : Nat) (e : IngredientUpdateRaw)
    (gs : List Ingredient) :
    (updateFirstIngredient i rid e gs).map (fun g => g.id) = gs.map (fun g => g.id) := by
  have h := congrArg (List.map Prod.fst) (updateFirstIngredient_keys i rid e gs)
  simpa [List.map_map, Function.comp, ingKey] using h

theorem applyIngredientUpdate_mem_updateFirst {g : Ingredient} {rid : Nat}
    (e : IngredientUpdateRaw) (hrid : g.recipe_id = rid) :
    ∀ (gs : List Ingredient),
      (gs.map (fun x => x.id)).Pairwise (fun a b => a ≠ b) →
      g ∈ gs → applyIngredientUpdate e g ∈ updateFirstIngredient g.id rid e gs := by
  intro gs
  induction gs with
  | nil => intro _ hmem; cases hmem
  | cons a t ih =>
    intro hpair hmem
    rw [List.map_cons, List.pairwise_cons] at hpair
    unfold updateFirstIngredient
    split
    · next hcond =>
      simp only [Bool.and_eq_true, beq_iff_eq] at hcond
      rcases List.mem_cons.mp hmem with rfl | hmem2
      · exact List.mem_cons_self _ _
      · exact absurd hcond.1 (hpair.1 g.id (List.mem_map_of_mem _ hmem2))
    · next hcond =>
      rcases List.mem_cons.mp hmem with rfl | hmem2
      · exact absurd (by simp [hrid]) hcond
      · exact List.mem_cons_of_mem _ (ih hpair.2 hmem2)

theorem bulkUpdateGo_applied {g : Ingredient} {rid : Nat} (hrid : g.recipe_id = rid) :
    ∀ (entries : List IngredientUpdateRaw) (gs : List Ingredient),
      (gs.map (fun x => x.id)).Pairwise (fun a b => a ≠ b) →
      (entries.filterMap (fun x => x.id)).Pairwise (fun a b => a ≠ b) →
      g ∈ gs → ∀ e ∈ entries, e.id = some g.id →
      applyIngredientUpdate e g ∈ (bulkUpdateGo rid entries gs).1 := by
  intro entries
  induction entries with
  | nil => intro gs _ _ _ e he; cases he
  | cons ehead es ih =>
    intro gs hgs hent hmem e he heid
    rcases List.mem_cons.mp he with rfl | hin
    · unfold bulkUpdateGo
      have hany : gs.any (fun x => x.id == g.id && x.recipe_id == rid) = true :=
        List.any_eq_true.mpr ⟨g, hmem, by simp [hrid]⟩
      simp only [heid, hany, if_true]
      have happlied : applyIngredientUpdate e g ∈ updateFirstIngredient g.id rid e gs :=
        applyIngredientUpdate_mem_updateFirst e hrid gs hgs hmem
      have hrest : ∀ e2 ∈ es, e2.id ≠ some (applyIngredientUpdate e g).id := by
        intro e2 he2 hcontra
        rw [show (applyIngredientUpdate e g).id = g.id from rfl] at hcontra
        rw [List.filterMap_cons, heid, List.pairwise_cons] at hent
        exact hent.1 g.id (List.mem_filterMap.mpr ⟨e2, he2, hcontra⟩) rfl
      exact bulkUpdateGo_untouched rid es _ happlied hrest
    · unfold bulkUpdateGo
      cases hid2 : ehead.id with
      | none =>
        have hent2 : (es.filterMap (fun x => x.id)).Pairwise (fun a b => a ≠ b) := by
          rw [List.filterMap_cons, hid2] at hent
          exact hent
        exact ih gs hgs hent2 hmem e hin heid
      | some i2 =>
        rw [List.filterMap_cons, hid2, List.pairwise_cons] at hent
        have hne : g.id ≠ i2 := by
          intro hcontra
          exact hent.1 g.id (List.mem_filterMap.mpr ⟨e, hin, heid⟩) hcontra.symm
        dsimp only
        split
        · refine ih (updateFirstIngredient i2 rid ehead gs) ?_ hent.2 ?_ e hin heid
          · rw [ids_updateFirstIngredient]
            exact hgs
          · exact mem_updateFirstIngredient_of_ne ehead hne hmem
        · exact ih gs hgs hent.2 hmem e hin heid

/-- The bulk-update entry list used in the concrete C10 statements: one
entry matches ingredient 1, one has a dangling id, one has no id. -/
def bulkUpdateEntries : List IngredientUpdateRaw :=
  [{ id := some 1, name := some "Bread flour", quantity := none, unit := none,
     notes := none, order := none },
   { id := some 99, name := some "Ghost", quantity := none, unit := none,
     notes := none, order := none },
   { id := none, name := some "Anonymous", quantity := none, unit := none,
     notes := none, order := none }]

/-- Counterexample to C10 as stated: the non-admin **owner** (user 1) of
recipe 7 submits a non-empty bulk update and is answered 403 with
nothing applied — the ownership disjunct of the repeated gate compares
the string JWT identity to the integer `user_id` and never passes — where
the claim asserts a 200 response with entries silently skipped or
applied. -/
theorem claim10_counterexample :
    ingredientBulkUpdate exampleDBunpub 1 7 (some bulkUpdateEntries) =
      (exampleDBunpub,
       forbidden_response "You do not have permission to update ingredients for this recipe",
       none) ∧
    forbidden_response "You do not have permission to update ingredients for this recipe" ≠
      success_response "1 ingredients updated successfully" 200 := by decide

/-- C10 as amended: a non-admin caller — in particular the recipe owner
— is rejected 403 with the store unchanged; for an **admin** caller with
a non-empty list, entries without an `id` or with an unmatched `id` are
skipped silently (200, no rollback; unnamed rows survive unchanged and
the `(id, recipe_id)` keys of the table are preserved), matched entries
are applied (under primary-key uniqueness and pairwise-distinct
submitted ids), and `total_updated` counts exactly the matching
entries. -/
theorem claim10_amended_bulk_update
    (σ : DB) (uid rid : Nat) (u : User) (recipe : Recipe) (entries : List IngredientUpdateRaw)
    (hrec : findRecipe σ rid = some recipe)
    (hu : findUser σ uid = some u)
    (hadm : u.is_admin = true)
    (hne : entries ≠ []) :
    (ingredientBulkUpdate σ uid rid (some entries)).2.1 =
      success_response (toString (matchedCount σ.ingredients rid entries) ++
        " ingredients updated successfully") 200 ∧
    (ingredientBulkUpdate σ uid rid (some entries)).2.2 =
      some (matchedCount σ.ingredients rid entries) ∧
    (ingredientBulkUpdate σ uid rid (some entries)).1.ingredients.map ingKey =
      σ.ingredients.map ingKey ∧
    (∀ g ∈ σ.ingredients, (∀ e ∈ entries, e.id ≠ some g.id) →
      g ∈ (ingredientBulkUpdate σ uid rid (some entries)).1.ingredients) ∧
    ((σ.ingredients.map (fun x => x.id)).Pairwise (fun a b => a ≠ b) →
     (entries.filterMap (fun x => x.id)).Pairwise (fun a b => a ≠ b) →
     ∀ g ∈ σ.ingredients, ∀ e ∈ entries, e.id = some g.id → g.recipe_id = rid →
       applyIngredientUpdate e g ∈ (ingredientBulkUpdate σ uid rid (some entries)).1.ingredients) ∧
    (ingredientBulkUpdate σ uid rid (some entries)).1.ratings = σ.ratings ∧
    (ingredientBulkUpdate σ uid rid (some entries)).1.recipes = σ.recipes ∧
    (∀ uid2 u2, findUser σ uid2 = some u2 → u2.is_admin = false →
      ingredientBulkUpdate σ uid2 rid (some entries) =
        (σ,
         forbidden_response "You do not have permission to update ingredients for this recipe",
         none)) := by
  have hlen : (entries.length == 0) = false := by
    cases entries
    · exact absurd rfl hne
    · rfl
  have hgate : ownerOrAdminGate σ uid recipe.user_id = some true := by
    simp [ownerOrAdminGate, pyIdentityEqInt, hu, hadm]
  refine ⟨?_, ?_, ?_, ?_, ?_, ?_, ?_, ?_⟩
  · simp [ingredientBulkUpdate, hrec, hgate, hlen, bulkUpdateGo_count]
  · simp [ingredientBulkUpdate, hrec, hgate, hlen, bulkUpdateGo_count]
  · simp [ingredientBulkUpdate, hrec, hgate, hlen, bulkUpdateGo_keys]
  · intro g hg hids
    simp only [ingredientBulkUpdate, hrec, hgate, hlen, Bool.false_eq_true, if_false]
    exact bulkUpdateGo_untouched rid entries σ.ingredients hg hids
  · intro hkeys hent g hg e he heid hgrid
    simp only [ingredientBulkUpdate, hrec, hgate, hlen, Bool.false_eq_true, if_false]
    exact bulkUpdateGo_applied hgrid entries σ.ingredients hkeys hent hg e he heid
  · simp [ingredientBulkUpdate, hrec, hgate, hlen]
  · simp [ingredientBulkUpdate, hrec, hgate, hlen]
  · intro uid2 u2 hu2 hadm2
    have hgate2 : ownerOrAdminGate σ uid2 recipe.user_id = some false := by
      simp [ownerOrAdminGate, pyIdentityEqInt, hu2, hadm2]
    simp [ingredientBulkUpdate, hrec, hgate2]

/-- Witness for the amended C10: the admin (user 3) of `exampleDBunpub`
against recipe 7 with `bulkUpdateEntries`. -/
theorem claim10_amended_witness :
    findRecipe exampleDBunpub 7 =
      some { id := 7, title := "Secret Pie", slug := "secret-pie",
             instructions := "Bake the pie.", is_published := false,
             user_id := 1, category_id := 1 } ∧
    findUser exampleDBunpub 3 = some { id := 3, username := "root", is_admin := true } ∧
    ({ id := 3, username := "root", is_admin := true } : User).is_admin = true ∧
    bulkUpdateEntries ≠ [] ∧
    ((ingredientBulkUpdate exampleDBunpub 3 7 (some bulkUpdateEntries)).2.1 =
      success_response (toString (matchedCount exampleDBunpub.ingredients 7 bulkUpdateEntries) ++
        " ingredients updated successfully") 200 ∧
    (ingredientBulkUpdate exampleDBunpub 3 7 (some bulkUpdateEntries)).2.2 =
      some (matchedCount exampleDBunpub.ingredients 7 bulkUpdateEntries) ∧
    (ingredientBulkUpdate exampleDBunpub 3 7 (some bulkUpdateEntries)).1.ingredients.map ingKey =
      exampleDBunpub.ingredients.map ingKey ∧
    (∀ g ∈ exampleDBunpub.ingredients, (∀ e ∈ bulkUpdateEntries, e.id ≠ some g.id) →
      g ∈ (ingredientBulkUpdate exampleDBunpub 3 7 (some bulkUpdateEntries)).1.ingredients) ∧
    ((exampleDBunpub.ingredients.map (fun x => x.id)).Pairwise (fun a b => a ≠ b) →
     (bulkUpdateEntries.filterMap (fun x => x.id)).Pairwise (fun a b => a ≠ b) →
     ∀ g ∈ exampleDBunpub.ingredients, ∀ e ∈ bulkUpdateEntries,
       e.id = some g.id → g.recipe_id = 7 →
       applyIngredientUpdate e g ∈
         (ingredientBulkUpdate exampleDBunpub 3 7 (some bulkUpdateEntries)).1.ingredients) ∧
    (ingredientBulkUpdate exampleDBunpub 3 7 (some bulkUpdateEntries)).1.ratings =
      exampleDBunpub.ratings ∧
    (ingredientBulkUpdate exampleDBunpub 3 7 (some bulkUpdateEntries)).1.recipes =
      exampleDBunpub.recipes ∧
    (∀ uid2 u2, findUser exampleDBunpub uid2 = some u2 → u2.is_admin = false →
      ingredientBulkUpdate exampleDBunpub uid2 7 (some bulkUpdateEntries) =
        (exampleDBunpub,
         forbidden_response "You do not have permission to update ingredients for this recipe",
         none))) :=
  ⟨by decide, by decide, by decide, by decide,
   claim10_amended_bulk_update exampleDBunpub 3 7
     { id := 3, username := "root", is_admin := true }
     { id := 7, title := "Secret Pie", slug := "secret-pie",
       instructions := "Bake the pie.", is_published := false,
       user_id := 1, category_id := 1 }
     bulkUpdateEntries
     (by decide) (by decide) (by decide) (by decide)⟩

theorem mem_collapseHyphens : ∀ (l : List Char) (c : Char), c ∈ collapseHyphens l → c ∈ l
  | [], _, h => by simp [collapseHyphens] at h
  | [a], c, h => by simpa [collapseHyphens] using h
  | a :: b :: rest, c, h => by
    unfold collapseHyphens at h
    split at h
    · exact List.mem_cons_of_mem a (mem_collapseHyphens (b :: rest) c h)
    · rcases List.mem_cons.mp h with h1 | h2
      · exact h1 ▸ List.mem_cons_self a (b :: rest)
      · exact List.mem_cons_of_mem a (mem_collapseHyphens (b :: rest) c h2)

theorem mem_stripHyphens {l : List Char} {c : Char} (h : c ∈ stripHyphens l) : c ∈ l := by
  unfold stripHyphens at h
  rw [List.mem_reverse] at h
  have h2 := (List.dropWhile_sublist (fun x => x = '-')).subset h
  rw [List.mem_reverse] at h2
  exact (List.dropWhile_sublist (fun x => x = '-')).subset h2

/-- Every character of a derived recipe slug lies in `[a-z0-9-]`. -/
theorem recipeDeriveSlug_chars (t : String) :
    ∀ c ∈ (recipeDeriveSlug t).toList, isSlugChar c = true := by
  intro c hc
  unfold recipeDeriveSlug at hc
  have h1 : c ∈ (((pyLower t).toList.map
      (fun c => if c = ' ' then '-' else c)).filter isSlugChar) :=
    mem_collapseHyphens _ c (mem_stripHyphens hc)
  exact (List.mem_filter.mp h1).2

/-- Counterexample to C5 as stated: the title `"Mac\tCheese"` passes the
schema validation, yet the stored slug is `"maccheese"` — the inline
pipeline hyphenates only the space character, so the tab is stripped by
the `[^a-z0-9-]` regex — while the claimed whitespace-run rule
(`specDeriveSlug`) yields `"mac-cheese"`. -/
theorem claim5_counterexample :
    titleValid "Mac\tCheese" = true ∧
    (recipeCreate exampleDB0 1 (some
      { title := "Mac\tCheese", instructions := "Mix and bake well.",
        category_id := 1, is_published := true })).2.2.map (fun r => r.slug) =
      some "maccheese" ∧
    specDeriveSlug "Mac\tCheese" = "mac-cheese" ∧
    ("maccheese" : String) ≠ "mac-cheese" := by decide

/-- C5 as amended: the stored slug of a created recipe is the title
lowercased with each space character (only) replaced by a hyphen,
characters outside `[a-z0-9-]` — including any other whitespace —
stripped, hyphen runs collapsed and edge hyphens trimmed; a taken
candidate gets the `-1`, `-2`, … retry; a free candidate is stored
as-is; the output alphabet stays inside `[a-z0-9-]`; and the claim's
two examples hold. -/
theorem claim5_amended_slug_derivation
    (σ : DB) (uid : Nat) (b : RecipeCreateBody) (t : String)
    (hv : recipe_create_valid b = true)
    (hcat : (findCategory σ b.category_id).isSome = true) :
    (recipeCreate σ uid (some b)).2.2.map (fun r => r.slug) =
      some (ensureUniqueSlug (recipeDeriveSlug b.title) (σ.recipes.map (fun r => r.slug))) ∧
    ((σ.recipes.map (fun r => r.slug)).contains (recipeDeriveSlug b.title) = false →
      (recipeCreate σ uid (some b)).2.2.map (fun r => r.slug) =
        some (recipeDeriveSlug b.title)) ∧
    (∀ c ∈ (recipeDeriveSlug t).toList, isSlugChar c = true) ∧
    recipeDeriveSlug "Spicy Chicken!!" = "spicy-chicken" ∧
    ensureUniqueSlug "spicy-chicken" ["spicy-chicken"] = "spicy-chicken-1" := by
  obtain ⟨cat, hcat'⟩ := Option.isSome_iff_exists.mp hcat
  have hmain : (recipeCreate σ uid (some b)).2.2.map (fun r => r.slug) =
      some (ensureUniqueSlug (recipeDeriveSlug b.title) (σ.recipes.map (fun r => r.slug))) := by
    simp [recipeCreate, hv, hcat']
  refine ⟨hmain, ?_, recipeDeriveSlug_chars t, by decide, by decide⟩
  intro hfree
  rw [hmain]
  unfold ensureUniqueSlug
  rw [hfree]
  rfl

/-- Witness for the amended C5 on `exampleDB0`. -/
theorem claim5_witness :
    recipe_create_valid
      { title := "Spicy Chicken", instructions := "Fry the chicken well.",
        category_id := 1, is_published := true } = true ∧
    (findCategory exampleDB0 1).isSome = true ∧
    ((recipeCreate exampleDB0 9 (some
        { title := "Spicy Chicken", instructions := "Fry the chicken well.",
          category_id := 1, is_published := true })).2.2.map (fun r => r.slug) =
      some (ensureUniqueSlug (recipeDeriveSlug "Spicy Chicken")
        (exampleDB0.recipes.map (fun r => r.slug))) ∧
     ((exampleDB0.recipes.map (fun r => r.slug)).contains (recipeDeriveSlug "Spicy Chicken") = false →
      (recipeCreate exampleDB0 9 (some
        { title := "Spicy Chicken", instructions := "Fry the chicken well.",
          category_id := 1, is_published := true })).2.2.map (fun r => r.slug) =
        some (recipeDeriveSlug "Spicy Chicken")) ∧
     (∀ c ∈ (recipeDeriveSlug "A  very__odd title!").toList, isSlugChar c = true) ∧
     recipeDeriveSlug "Spicy Chicken!!" = "spicy-chicken" ∧
     ensureUniqueSlug "spicy-chicken" ["spicy-chicken"] = "spicy-chicken-1") :=
  ⟨by decide, by decide,
   claim5_amended_slug_derivation exampleDB0 9
     { title := "Spicy Chicken", instructions := "Fry the chicken well.",
       category_id := 1, is_published := true }
     "A  very__odd title!" (by decide) (by decide)⟩

/-- A store with an admin and a category whose slug is `a-b`. -/
def exampleDBadmin : DB :=
  { users := [{ id := 1, username := "root", is_admin := true }]
    categories := [{ id := 1, name := "A B", slug := "a-b", description := none }]
    recipes := []
    ingredients := []
    ratings := [] }

/-- Counterexample to C6 as stated: an admin creating category
`"Desserts!"` stores slug `"desserts!"` — `Category._generate_slug` does
no stripping, collapsing or trimming — where the claimed deriveSlug rules
give `"desserts"`; and a slug collision under a distinct name (`"A_B"`
against the existing slug `"a-b"`) is answered 400, not retried with a
`-1` suffix. -/
theorem claim6_counterexample :
    category_generate_slug "Desserts!" = "desserts!" ∧
    specDeriveSlug "Desserts!" = "desserts" ∧
    (categoryPost exampleDBadmin 1 (some { name := "Desserts!", description := none })).2.2.map
      (fun c => c.slug) = some "desserts!" ∧
    ("desserts!" : String) ≠ "desserts" ∧
    categoryPost exampleDBadmin 1 (some { name := "A_B", description := none }) =
      (exampleDBadmin, error_response "Category with this name already exists" 400, none) := by
  decide

theorem list_any_or {α : Type} (l : List α) (p q : α → Bool) :
    l.any (fun x => p x || q x) = (l.any p || l.any q) := by
  induction l with
  | nil => rfl
  | cons a t ih =>
    simp only [List.any_cons, ih]
    cases p a <;> cases q a <;> simp

/-- C6 as amended: for an admin with a valid body, a duplicate name is
rejected 400 by the pre-check with the store unchanged; a fresh name
stores slug `name.lower().replace(' ', '-').replace('_', '-')` — no
character stripping, no hyphen collapsing or trimming, and no `-1`, `-2`,
… retry; and when that slug collides with an existing row under a fresh
name, the store constraint rejects the insert and the handler answers
the same 400 duplicate error with the store unchanged. -/
theorem claim6_amended_category_slug
    (σ : DB) (uid : Nat) (u : User) (b : CategoryCreateBody)
    (hu : findUser σ uid = some u) (hadm : u.is_admin = true)
    (hv : category_create_valid b = true) :
    (σ.categories.any (fun c => c.name == b.name) = true →
      categoryPost σ uid (some b) =
        (σ, error_response "Category with this name already exists" 400, none)) ∧
    (σ.categories.any (fun c => c.name == b.name) = false →
      σ.categories.any (fun c => c.slug == category_generate_slug b.name) = false →
      (categoryPost σ uid (some b)).2.1 = success_response "Category created successfully" 201 ∧
      (categoryPost σ uid (some b)).2.2.map (fun c => c.slug) =
        some (category_generate_slug b.name) ∧
      (categoryPost σ uid (some b)).1.categories =
        σ.categories ++ [{ id := nextCategoryId σ, name := b.name,
                           slug := category_generate_slug b.name,
                           description := b.description }]) ∧
    (σ.categories.any (fun c => c.name == b.name) = false →
      σ.categories.any (fun c => c.slug == category_generate_slug b.name) = true →
      categoryPost σ uid (some b) =
        (σ, error_response "Category with this name already exists" 400, none)) := by
  refine ⟨?_, ?_, ?_⟩
  · intro hname
    simp [categoryPost, hu, hadm, hv, hname]
  · intro hname hslug
    have hins : σ.categories.any
        (fun x => x.name == b.name || x.slug == category_generate_slug b.name) = false := by
      rw [list_any_or, hname, hslug]
      rfl
    refine ⟨?_, ?_, ?_⟩ <;>
      simp [categoryPost, hu, hadm, hv, hname, dbInsertCategory, hins]
  · intro hname hslug
    have hins : σ.categories.any
        (fun x => x.name == b.name || x.slug == category_generate_slug b.name) = true := by
      rw [list_any_or, hslug]
      simp
    simp [categoryPost, hu, hadm, hv, hname, dbInsertCategory, hins]

/-- Witness for the amended C6 on `exampleDBadmin`. -/
theorem claim6_witness :
    findUser exampleDBadmin 1 = some { id := 1, username := "root", is_admin := true } ∧
    ({ id := 1, username := "root", is_admin := true } : User).is_admin = true ∧
    category_create_valid { name := "Ice Cream_Cakes", description := none } = true ∧
    ((exampleDBadmin.categories.any (fun c => c.name == "Ice Cream_Cakes") = true →
      categoryPost exampleDBadmin 1 (some { name := "Ice Cream_Cakes", description := none }) =
        (exampleDBadmin, error_response "Category with this name already exists" 400, none)) ∧
    (exampleDBadmin.categories.any (fun c => c.name == "Ice Cream_Cakes") = false →
      exampleDBadmin.categories.any
        (fun c => c.slug == category_generate_slug "Ice Cream_Cakes") = false →
      (categoryPost exampleDBadmin 1 (some { name := "Ice Cream_Cakes", description := none })).2.1 =
        success_response "Category created successfully" 201 ∧
      (categoryPost exampleDBadmin 1 (some { name := "Ice Cream_Cakes", description := none })).2.2.map
        (fun c => c.slug) = some (category_generate_slug "Ice Cream_Cakes") ∧
      (categoryPost exampleDBadmin 1 (some { name := "Ice Cream_Cakes", description := none })).1.categories =
        exampleDBadmin.categories ++
          [{ id := nextCategoryId exampleDBadmin, name := "Ice Cream_Cakes",
             slug := category_generate_slug "Ice Cream_Cakes", description := none }]) ∧
    (exampleDBadmin.categories.any (fun c => c.name == "Ice Cream_Cakes") = false →
      exampleDBadmin.categories.any
        (fun c => c.slug == category_generate_slug "Ice Cream_Cakes") = true →
      categoryPost exampleDBadmin 1 (some { name := "Ice Cream_Cakes", description := none }) =
        (exampleDBadmin, error_response "Category with this name already exists" 400, none))) :=
  ⟨by decide, by decide, by decide,
   claim6_amended_category_slug exampleDBadmin 1
     { id := 1, username := "root", is_admin := true }
     { name := "Ice Cream_Cakes", description := none }
     (by decide) (by decide) (by decide)⟩

/-- A bulk-create item that omits the `order` key. -/
def bulkItemFlour : IngredientItemRaw :=
  { name := some "Flour", quantity := some "2", unit := none, notes := none, order := none }

/-- A second bulk-create item that omits the `order` key. -/
def bulkItemSugar : IngredientItemRaw :=
  { name := some "Sugar", quantity := some "1", unit := none, notes := none, order := none }

/-- `exampleDB0` with an additional admin (user 2) — with the broken
ownership gate, only an admin can reach the bulk-create loop at all. -/
def exampleDB0admin : DB :=
  { exampleDB0 with
    users := exampleDB0.users ++ [{ id := 2, username := "root", is_admin := true }] }

/-- C9 evaluated on the code: for the admin caller, 51 items are
rejected by validation with nothing written and 50 valid items succeed —
but a two-item batch whose items omit `order` is stored with orders
`[0, 0]`, not the submitted positions `[0, 1]`:
`IngredientCreateSchema`'s `load_default=0` fills the key before the
handler's `ingredient_data.get('order', idx)` can apply its positional
default, leaving that default dead.  The recipe's non-admin owner
(user 1) never reaches the loop: the gate's ownership disjunct compares
the string identity to the integer column and 403s them. -/
theorem claim9_bulk_create_order_evaluation :
    ingredientBulkCreate exampleDB0admin 2 1 (some (List.replicate 51 bulkItemFlour)) =
      (exampleDB0admin, validation_error_response, none) ∧
    (ingredientBulkCreate exampleDB0admin 2 1 (some (List.replicate 50 bulkItemFlour))).2.1 =
      success_response "50 ingredients added successfully" 201 ∧
    (ingredientBulkCreate exampleDB0admin 2 1 (some [bulkItemFlour, bulkItemSugar])).2.2.map
      (fun l => l.map (fun g => g.order)) = some [0, 0] ∧
    ([(0 : Int), 0] ≠ [0, 1]) ∧
    ingredientBulkCreate exampleDB0admin 1 1 (some [bulkItemFlour, bulkItemSugar]) =
      (exampleDB0admin,
       forbidden_response "You do not have permission to add ingredients to this recipe",
       none) := by decide

end RecipeApi
